import Mathlib

/-!
Verification of the mp_graphics cartographic rendering core
(label placement, scale selection, pagination, label grammar).

The Python source is embedded shallowly:
* machine floats are modelled by exact rationals `ℚ`; every branch decided
  in the development is numerically robust (far from representation error);
* `int(x)` is truncation toward zero (`pyInt`), `round(x)` is Python's
  round-half-to-even (`pyRound`);
* fallible code (Python exceptions such as `ZeroDivisionError`) is modelled
  with `Option`, `none` meaning "an exception escapes to the caller";
* calls into the C math library (`math.cos`, `math.sin`, `math.atan2`,
  `math.sqrt`, and `math.pi`) have no exact rational semantics; they are
  passed in as an explicit `MathOracle` argument.  Where the source only
  *compares* a square root against a nonnegative bound, the comparison is
  translated to the equivalent exact comparison of squares.
-/

/-- Truncation toward zero, the semantics of Python `int(float)`. -/
def pyInt (q : ℚ) : ℤ :=
  if q < 0 then -⌊-q⌋ else ⌊q⌋

/-- Python `round` with no digits argument: round half to even, to an integer. -/
def pyRound (q : ℚ) : ℤ :=
  let f : ℤ := ⌊q⌋
  let r : ℚ := q - f
  if r < 1/2 then f
  else if 1/2 < r then f + 1
  else if f % 2 = 0 then f else f + 1

/-- Conversion of millimetres to pixels, from `core/units.py`:
`px = mm * dpi / 25.4`. -/
def mmToPx (mm : ℚ) (dpi : ℚ) : ℚ := mm * dpi / (127/5)

/-- Page format record, from `core/page.py` (`PageFormat` dataclass). -/
structure PageFormatM where
  name : String
  widthMm : ℚ
  heightMm : ℚ
  marginLeftMm : ℚ := 20
  marginRightMm : ℚ := 20
  marginTopMm : ℚ := 10
  marginBottomMm : ℚ := 10
  deriving Repr, DecidableEq

/-- Printable workarea width (property `workarea_width_mm`). -/
def workareaWidthMm (f : PageFormatM) : ℚ :=
  max 0 (f.widthMm - f.marginLeftMm - f.marginRightMm)

/-- Printable workarea height (property `workarea_height_mm`). -/
def workareaHeightMm (f : PageFormatM) : ℚ :=
  max 0 (f.heightMm - f.marginTopMm - f.marginBottomMm)

/-- Scale denominator for a metric bbox on a given workarea,
from `_scale_denominator_for_bbox`. -/
def scaleDenominatorForBbox (contentWidthM contentHeightM workWmm workHmm : ℚ) : ℚ :=
  let contentWmm := max (1/10^9) (contentWidthM * 1000)
  let contentHmm := max (1/10^9) (contentHeightM * 1000)
  let nW := contentWmm / max (1/10^9) workWmm
  let nH := contentHmm / max (1/10^9) workHmm
  max nW nH

/-- A4 portrait page as constructed in `choose_format_and_scale`. -/
def pageA4 : PageFormatM := { name := "A4", widthMm := 210, heightMm := 297 }

/-- A3 portrait page as constructed in `choose_format_and_scale`. -/
def pageA3 : PageFormatM := { name := "A3", widthMm := 297, heightMm := 420 }

/-- Inner helper `pick_for` of `choose_format_and_scale`: smallest allowed
scale at least `needN`, else the largest allowed one, else (empty list,
unreachable because the caller replaces an empty list by defaults) the
rounded raw value.  The Python annotation admits `None` but every branch
returns an `int`; the `Option` result mirrors the annotation. -/
def pickForFormat (allowed : List ℤ) (needN : ℚ) : Option ℤ :=
  match allowed.find? (fun (n : ℤ) => decide (needN ≤ (n : ℚ))) with
  | some n => some n
  | none =>
    match allowed with
    | [] => some (pyRound needN)
    | _ => allowed.getLast?

/-- Scale/format selection, from `choose_format_and_scale` in `core/page.py`.
`bbox = (min_x, min_y, max_x, max_y)` in metres.  An empty allowed list is
replaced by the defaults `[500, 1000, 2000, 5000]` (Python `or`), then
sorted ascending.  Note the A3 fallback branches are dead code: `pick_for`
always returns an integer, so A4 is always chosen. -/
def chooseFormatAndScale (bbox : ℚ × ℚ × ℚ × ℚ) (scalesIn : List ℤ) : PageFormatM × ℤ :=
  let contentW := max (1/10^9) (bbox.2.2.1 - bbox.1)
  let contentH := max (1/10^9) (bbox.2.2.2 - bbox.2.1)
  let allowed := (if scalesIn = [] then [500, 1000, 2000, 5000] else scalesIn).mergeSort
    (fun a b => a ≤ b)
  let needA4 := scaleDenominatorForBbox contentW contentH
    (workareaWidthMm pageA4) (workareaHeightMm pageA4)
  match pickForFormat allowed needA4 with
  | some n => (pageA4, n)
  | none =>
    let needA3 := scaleDenominatorForBbox contentW contentH
      (workareaWidthMm pageA3) (workareaHeightMm pageA3)
    match pickForFormat allowed needA3 with
    | some n => (pageA3, n)
    | none => (pageA3, pyRound needA3)

/-! ## Label grammar (`graphics/labels.py`)

Designations are modelled as `List Char`.  The formatter functions follow
`ParcelLabelFormatter`; Python f-string interpolation of an `int` counter is
decimal notation, embedded as `natDigits`.  The validator regexes of
`REGEX_LABELS` are embedded as deterministic parsers; this is equivalent to
the regex semantics because in every pattern the character following a
`\d+` group is a non-digit, so the greedy maximal digit run is the only
possible match.  `\d` is embedded as the ASCII digit test (Python also
accepts other Unicode digits; all strings in play are ASCII digits). -/

/-- ASCII digit test (the only digits produced by the formatters). -/
def isDig (c : Char) : Bool := decide (48 ≤ c.toNat) && decide (c.toNat ≤ 57)

/-- Decimal digit character for a value in `0..9`. -/
def digitChar (d : ℕ) : Char :=
  match d with
  | 0 => '0' | 1 => '1' | 2 => '2' | 3 => '3' | 4 => '4'
  | 5 => '5' | 6 => '6' | 7 => '7' | 8 => '8' | _ => '9'

/-- Decimal notation of a natural number, the embedding of Python
f-string interpolation of a nonnegative `int`. -/
def natDigits (n : ℕ) : List Char :=
  if _h : n < 10 then [digitChar n]
  else natDigits (n / 10) ++ [digitChar (n % 10)]
termination_by n
decreasing_by exact Nat.div_lt_self (by omega) (by omega)

/-- `base_label_for_clarify`: `f":{quartal_no}"`. -/
def baseLabelForClarify (q : List Char) : List Char := ':' :: q

/-- `new_label_for_split`: `f":{quartal_no}:ЗУ{n}"`. -/
def newLabelForSplit (q : List Char) (n : ℕ) : List Char :=
  ':' :: q ++ ':' :: 'З' :: 'У' :: natDigits n

/-- `new_label_for_merge`: `f":ЗУ{n}"`. -/
def newLabelForMerge (n : ℕ) : List Char := ':' :: 'З' :: 'У' :: natDigits n

/-- `part_existing`: `f":{quartal_no}/{part_no}"`. -/
def partExisting (q : List Char) (p : ℕ) : List Char := ':' :: q ++ '/' :: natDigits p

/-- `part_new_on_changed`: `f":{quartal_no}/чзу{n}"`. -/
def partNewOnChanged (q : List Char) (n : ℕ) : List Char :=
  ':' :: q ++ '/' :: 'ч' :: 'з' :: 'у' :: natDigits n

/-- `part_new_on_split`: `f":{quartal_no}:ЗУ{zu_n}/чзу{part_n}"`. -/
def partNewOnSplit (q : List Char) (z p : ℕ) : List Char :=
  ':' :: q ++ ':' :: 'З' :: 'У' :: natDigits z ++ '/' :: 'ч' :: 'з' :: 'у' :: natDigits p

/-- `part_new_on_merge`: `f":ЗУ{zu_n}/чзу{part_n}"`. -/
def partNewOnMerge (z p : ℕ) : List Char :=
  ':' :: 'З' :: 'У' :: natDigits z ++ '/' :: 'ч' :: 'з' :: 'у' :: natDigits p

/-- Nonempty all-digit run (`\d+` anchored to the whole remainder). -/
def matchDigits1 (l : List Char) : Bool := !l.isEmpty && l.all isDig

/-- Regex `^:\d+$` (kind `clarify`). -/
def matchClarify (l : List Char) : Bool :=
  match l with
  | ':' :: rest => matchDigits1 rest
  | _ => false

/-- Regex `^:ЗУ\d+$` (kind `merge`). -/
def matchMerge (l : List Char) : Bool :=
  match l with
  | ':' :: 'З' :: 'У' :: rest => matchDigits1 rest
  | _ => false

/-- Regex `^:\d+:ЗУ\d+$` (kind `split`). -/
def matchSplit (l : List Char) : Bool :=
  match l with
  | ':' :: rest =>
    !(rest.takeWhile isDig).isEmpty &&
      (match rest.dropWhile isDig with
       | ':' :: 'З' :: 'У' :: rest2 => matchDigits1 rest2
       | _ => false)
  | _ => false

/-- Regex `^:\d+/\d+$` (kind `part_existing`). -/
def matchPartExisting (l : List Char) : Bool :=
  match l with
  | ':' :: rest =>
    !(rest.takeWhile isDig).isEmpty &&
      (match rest.dropWhile isDig with
       | '/' :: rest2 => matchDigits1 rest2
       | _ => false)
  | _ => false

/-- Regex `^:\d+/чзу\d+$` (kind `part_new_changed`). -/
def matchPartNewChanged (l : List Char) : Bool :=
  match l with
  | ':' :: rest =>
    !(rest.takeWhile isDig).isEmpty &&
      (match rest.dropWhile isDig with
       | '/' :: 'ч' :: 'з' :: 'у' :: rest2 => matchDigits1 rest2
       | _ => false)
  | _ => false

/-- Regex `^:\d+:ЗУ\d+/чзу\d+$` (kind `part_new_split`). -/
def matchPartNewSplit (l : List Char) : Bool :=
  match l with
  | ':' :: rest =>
    !(rest.takeWhile isDig).isEmpty &&
      (match rest.dropWhile isDig with
       | ':' :: 'З' :: 'У' :: rest2 =>
         !(rest2.takeWhile isDig).isEmpty &&
           (match rest2.dropWhile isDig with
            | '/' :: 'ч' :: 'з' :: 'у' :: rest3 => matchDigits1 rest3
            | _ => false)
       | _ => false)
  | _ => false

/-- Regex `^:ЗУ\d+/чзу\d+$` (kind `part_new_merge`). -/
def matchPartNewMerge (l : List Char) : Bool :=
  match l with
  | ':' :: 'З' :: 'У' :: rest =>
    !(rest.takeWhile isDig).isEmpty &&
      (match rest.dropWhile isDig with
       | '/' :: 'ч' :: 'з' :: 'у' :: rest2 => matchDigits1 rest2
       | _ => false)
  | _ => false

/-- `validate_label(label, kind)` from `graphics/labels.py`: dispatch on the
`REGEX_LABELS` table, unknown kinds are rejected. -/
def validateLabel (l : List Char) (kind : String) : Bool :=
  match kind with
  | "clarify" => matchClarify l
  | "split" => matchSplit l
  | "merge" => matchMerge l
  | "part_existing" => matchPartExisting l
  | "part_new_changed" => matchPartNewChanged l
  | "part_new_split" => matchPartNewSplit l
  | "part_new_merge" => matchPartNewMerge l
  | _ => false


/-! ## Renderer configuration and geometry (`graphics/svg_generator.py`)

The `SVGConfig` dataclass is embedded with its default values.  Coordinates
are rational pairs.  `min(...)`/`max(...)` over Python generators of a
nonempty sequence are folds over the list. -/

/-- Configuration record, from the `SVGConfig` dataclass. -/
structure SVGConfigM where
  width : ℤ := 800
  height : ℤ := 600
  strokeWidth : ℚ := 1/5
  pointRadius : ℚ := 3/2
  createdPointRadius : ℚ := 3/2
  existingPointRadius : ℚ := 3/2
  fontSize : ℤ := 11
  fontFamily : String := "Times New Roman, serif"
  innerMarginPx : ℤ := 60
  boundaryStrokeWidth : ℚ := 1/5
  minFontPt : ℚ := 7
  red : String := "#FF0000"
  black : String := "#000000"
  blue : String := "#0077CC"
  green : String := "#00AA00"
  brown : String := "#8B4513"
  pageWidthMm : ℚ := 210
  pageHeightMm : ℚ := 297
  marginMm : ℚ := 14
  headerHeightMm : ℚ := 18
  legendHeightMm : ℚ := 40
  dpi : ℤ := 96
  showNorthArrow : Bool := false
  deriving Repr, DecidableEq

/-- Workarea size in pixels, from `_workarea_size_px`. -/
def workareaSizePx (cfg : SVGConfigM) : ℚ × ℚ :=
  let waWmm := max 0 (cfg.pageWidthMm - 2 * cfg.marginMm)
  let waHmm := max 0
    (cfg.pageHeightMm - (2 * cfg.marginMm + cfg.headerHeightMm + cfg.legendHeightMm))
  (mmToPx waWmm cfg.dpi, mmToPx waHmm cfg.dpi)

/-- Fold giving the minimum of a nonempty collection, Python `min(...)`. -/
def foldMin (x : ℚ) (xs : List ℚ) : ℚ := xs.foldl min x

/-- Fold giving the maximum of a nonempty collection, Python `max(...)`. -/
def foldMax (x : ℚ) (xs : List ℚ) : ℚ := xs.foldl max x

/-- Coordinate normalization, from `_normalize_coordinates`: returns the
normalized coordinates, the metric bbox centre and the uniform scale.  The
empty input short-circuits to `([], (0, 0), 1)`; a zero extent on an axis
makes that axis contribute scale factor 1 instead of dividing by zero. -/
def normalizeCoordinates (cfg : SVGConfigM) (coords : List (ℚ × ℚ)) :
    List (ℚ × ℚ) × (ℚ × ℚ) × ℚ :=
  match coords with
  | [] => ([], (0, 0), 1)
  | c :: rest =>
    let minX := foldMin c.1 (rest.map Prod.fst)
    let maxX := foldMax c.1 (rest.map Prod.fst)
    let minY := foldMin c.2 (rest.map Prod.snd)
    let maxY := foldMax c.2 (rest.map Prod.snd)
    let width := maxX - minX
    let height := maxY - minY
    let paddingPx : ℚ := cfg.innerMarginPx
    let scaleX := if 0 < width then ((cfg.width : ℚ) - 2 * paddingPx) / width else 1
    let scaleY := if 0 < height then ((cfg.height : ℚ) - 2 * paddingPx) / height else 1
    let scale := min scaleX scaleY
    let centerX := (minX + maxX) / 2
    let centerY := (minY + maxY) / 2
    let normalized := coords.map (fun p =>
      ((p.1 - centerX) * scale + (cfg.width : ℚ) / 2,
       (p.2 - centerY) * scale + (cfg.height : ℚ) / 2))
    (normalized, (centerX, centerY), scale)

/-! ## Boundary-segment status classification -/

/-- Boundary status enumeration, from `core/enums.py` (`BoundaryStatus`). -/
inductive BoundaryStatusM where
  | EXISTING
  | NEW
  | UNCERTAIN
  deriving Repr, DecidableEq

/-- Membership of a point kind in the new-kind pair, Python
`k in ('NEW', 'CREATED')`. -/
def isNewKind (k : String) : Bool := k = "NEW" || k = "CREATED"

/-- Segment status from its endpoint kinds, the translation of the
classification in `generate_parcel_graphics` (also textually repeated in
`generate_sgp_graphics`): NEW if either endpoint is NEW/CREATED, EXISTING
if both are EXISTING, otherwise UNCERTAIN. -/
def segStatus (k1 k2 : String) : BoundaryStatusM :=
  if isNewKind k1 || isNewKind k2 then .NEW
  else if k1 = "EXISTING" && k2 = "EXISTING" then .EXISTING
  else .UNCERTAIN

/-- Classification in the words of the specification: both EXISTING gives
EXISTING, at least one CREATED/NEW gives NEW, anything else UNCERTAIN. -/
def classifySpec (k1 k2 : String) : BoundaryStatusM :=
  if k1 = "EXISTING" ∧ k2 = "EXISTING" then .EXISTING
  else if (k1 = "CREATED" ∨ k1 = "NEW") ∨ (k2 = "CREATED" ∨ k2 = "NEW") then .NEW
  else .UNCERTAIN

/-- Segment status used by the paginated CH drawing
(`generate_drawings_paginated`, stroke selection): red/NEW if either
endpoint is NEW/CREATED, otherwise black/EXISTING — no UNCERTAIN case. -/
def chSegStatus (k1 k2 : String) : BoundaryStatusM :=
  if isNewKind k1 || isNewKind k2 then .NEW else .EXISTING

/-- Stroke colour and dash pattern of one paginated-CH boundary segment
(`generate_drawings_paginated`, the `stroke`/`dash` assignment). -/
def chSegStrokeDash (cfg : SVGConfigM) (k1 k2 : String) : String × Option String :=
  (if isNewKind k1 || isNewKind k2 then cfg.red else cfg.black, none)

/-- Legend token of one paginated-CH boundary segment. -/
def chSegToken (cfg : SVGConfigM) (k1 k2 : String) : String :=
  if (chSegStrokeDash cfg k1 k2).1 = cfg.red then "boundary-new" else "boundary-existing"

/-! ## Font-size floor (`_create_text`, `_place_label`, `_draw_point`) -/

/-- Font floor in pixels: `int(round(min_font_pt * (96.0/72.0)))`.  Note the
hard-coded 96: the configured `dpi` is not consulted. -/
def minFontPx (cfg : SVGConfigM) : ℤ := pyRound (cfg.minFontPt * (96 / 72))

/-- Effective font size of `_create_text`: the requested size (Python
falsy 0/None falls back to `config.font_size`) clamped up to `minFontPx`. -/
def createTextFontSize (cfg : SVGConfigM) (fontSize : Option ℤ) : ℤ :=
  let fontSz := match fontSize with
    | some v => if v = 0 then cfg.fontSize else v
    | none => cfg.fontSize
  if fontSz < minFontPx cfg then minFontPx cfg else fontSz

/-- Points-to-pixels conversion at a given DPI (the conversion the claim
asserts for the font floor): `pt * dpi / 72`. -/
def ptToPxAtDpi (pt : ℚ) (dpi : ℚ) : ℚ := pt * dpi / 72


/-! ## Geometry predicates of the label-placement engine -/

/-- Axis-aligned rectangle `(x_min, y_min, x_max, y_max)`; tuple indices
0..3 of the Python code map to the four fields in order. -/
structure RectM where
  x0 : ℚ
  y0 : ℚ
  x1 : ℚ
  y1 : ℚ
  deriving Repr, DecidableEq

/-- Rectangle intersection test, from `_bboxes_intersect`. -/
def bboxesIntersect (b1 b2 : RectM) : Bool :=
  !(decide (b1.x1 < b2.x0) || decide (b1.x0 > b2.x1) ||
    decide (b1.y1 < b2.y0) || decide (b1.y0 > b2.y1))

/-- One step of the ray-casting parity loop of `_point_inside_polygon`;
the division is only reached when the parity condition already forces
`yj ≠ yi`, exactly as in the Python short-circuit. -/
def rayCastStep (x y : ℚ) (pi pj : ℚ × ℚ) (inside : Bool) : Bool :=
  if (decide (pi.2 > y) != decide (pj.2 > y)) &&
      decide (x < (pj.1 - pi.1) * (y - pi.2) / (pj.2 - pi.2) + pi.1)
  then !inside else inside

/-- Point-in-polygon ray casting, from `_point_inside_polygon`: vertex `i`
is paired with vertex `j = i - 1` (`j` starts at `n - 1`).  The empty
polygon yields `false` (loop body never runs). -/
def pointInsidePolygon (x y : ℚ) (poly : List (ℚ × ℚ)) : Bool :=
  match poly with
  | [] => false
  | p :: ps =>
    ((p :: ps).zip ((p :: ps).getLastD p :: (p :: ps).dropLast)).foldl
      (fun inside pr => rayCastStep x y pr.1 pr.2 inside) false

/-- Squared point-to-segment distance, from `_point_to_segment_distance`.
The source returns the square root; every use compares the result with a
nonnegative bound, so the comparison of squares is equivalent and keeps
the embedding exact. -/
def pointToSegDist2 (px py x1 y1 x2 y2 : ℚ) : ℚ :=
  let dx := x2 - x1
  let dy := y2 - y1
  if dx = 0 ∧ dy = 0 then (px - x1)^2 + (py - y1)^2
  else
    let t := ((px - x1) * dx + (py - y1) * dy) / (dx * dx + dy * dy)
    let tc := max 0 (min 1 t)
    let closestX := x1 + tc * dx
    let closestY := y1 + tc * dy
    (px - closestX)^2 + (py - closestY)^2

/-- Closed-ring segment list: vertex `i` with vertex `(i+1) % n`, the
iteration shape shared by `_distance_to_polygon_edge` and the boundary
drawing loops. -/
def ringSegs {α : Type} (poly : List α) : List (α × α) :=
  match poly with
  | [] => []
  | p :: ps => (p :: ps).zip (ps ++ [p])

/-- Whether the minimum distance from `(x, y)` to the polygon edge is below
`bound` (`bound ≥ 0`), from `_distance_to_polygon_edge` followed by the
`min_dist < bound` comparison: the minimum over the ring of square roots is
below `bound` iff some squared distance is below `bound²`; an empty
polygon leaves the Python minimum at `inf`, i.e. `false` here. -/
def distToPolygonEdgeLt (x y : ℚ) (poly : List (ℚ × ℚ)) (bound : ℚ) : Bool :=
  (ringSegs poly).any (fun s =>
    decide (pointToSegDist2 x y s.1.1 s.1.2 s.2.1 s.2.2 < bound^2))

/-! ## Spiral search (`_spiral_search_for_label`)

The candidate positions on a ring of radius `r > 0` use `math.cos`/
`math.sin` of `i·2π/num_points` and `num_points = max(8, int(2π·r/10))`;
these transcendental values are supplied by a `MathOracle`.  Everything
else — the radius schedule 0, 2, …, 148, the first-fit scan order, the
conflict predicate and the fixed fallback — is embedded exactly. -/

/-- Abstraction of the C math library calls: `ringVec n i` stands for
`(cos(i·2π/n), sin(i·2π/n))`, `twoPiRadiusCount r` for `int(2π·r/10)`,
`fanUnit dx dy m i` for the unit vector of the `i`-th fan angle of an
`m`-cluster whose base bearing is that of `(dx, dy)` (the composition of
`math.atan2`, `_get_fan_angles` and `cos`/`sin`), and `sqrtQ`/`cosQ`/
`sinQ`/`atan2Q` for the corresponding `math` functions. -/
structure MathOracle where
  sqrtQ : ℚ → ℚ
  cosQ : ℚ → ℚ
  sinQ : ℚ → ℚ
  atan2Q : ℚ → ℚ → ℚ
  ringVec : ℕ → ℕ → ℚ × ℚ
  twoPiRadiusCount : ℕ → ℤ
  fanUnit : ℚ → ℚ → ℕ → ℕ → ℚ × ℚ

/-- Number of candidate points on the ring of a given radius:
`max(8, int(2·π·radius/10)) if radius > 0 else 1`. -/
def spiralNumPoints (orc : MathOracle) (radius : ℕ) : ℕ :=
  if 0 < radius then max 8 (orc.twoPiRadiusCount radius).toNat else 1

/-- Candidate positions on one ring, in scan order `i = 0, 1, …`. -/
def spiralRingCandidates (orc : MathOracle) (startX startY : ℚ) (radius : ℕ) :
    List (ℚ × ℚ) :=
  (List.range (spiralNumPoints orc radius)).map (fun i =>
    if radius = 0 then (startX, startY)
    else
      let v := orc.ringVec (spiralNumPoints orc radius) i
      (startX + (radius : ℚ) * v.1, startY + (radius : ℚ) * v.2))

/-- Padded label wrapper rectangle centred at a candidate position, from
the inner `create_label_rect` of `_spiral_search_for_label`
(`char_width = 0.6·font`, `height = font`, padding 4). -/
def spiralLabelRect (labelText : String) (fontSize : ℚ) (c : ℚ × ℚ) : RectM :=
  let charWidth := fontSize * (3/5)
  let textWidth := (labelText.length : ℚ) * charWidth
  let textHeight := fontSize
  let padding : ℚ := 4
  { x0 := c.1 - textWidth/2 - padding
    y0 := c.2 - textHeight/2 - padding
    x1 := c.1 + textWidth/2 + padding
    y1 := c.2 + textHeight/2 + padding }

/-- Conflict predicate of the spiral search, from the inner
`has_intersections`: conflict with a placed label bbox, with an object
buffer, the rectangle centre inside the polygon, or the centre closer
than 6 px to the polygon edge. -/
def spiralHasIntersections (rect : RectM) (existingLabels : List RectM)
    (allObjectBuffers : List RectM) (poly : List (ℚ × ℚ)) : Bool :=
  existingLabels.any (fun l => bboxesIntersect rect l) ||
  allObjectBuffers.any (fun b => bboxesIntersect rect b) ||
  (let rectCenterX := (rect.x0 + rect.x1) / 2
   let rectCenterY := (rect.y0 + rect.y1) / 2
   pointInsidePolygon rectCenterX rectCenterY poly ||
   distToPolygonEdgeLt rectCenterX rectCenterY poly 6)

/-- Outer radius loop of `_spiral_search_for_label` with its early
return: try each ring in order, return the first acceptable candidate. -/
def spiralScanRings (orc : MathOracle) (startX startY : ℚ) (ok : ℚ × ℚ → Bool) :
    List ℕ → Option (ℚ × ℚ)
  | [] => none
  | r :: rs =>
    match (spiralRingCandidates orc startX startY r).find? ok with
    | some c => some c
    | none => spiralScanRings orc startX startY ok rs

/-- Spiral search, from `_spiral_search_for_label`: scan radii
`range(0, 150, 2)`; fall back to `(start_x + 150, start_y)`. -/
def spiralSearchForLabel (orc : MathOracle) (startX startY : ℚ) (labelText : String)
    (fontSize : ℚ) (polygonPointsRel : List (ℚ × ℚ)) (allObjectBuffers : List RectM)
    (existingLabels : List RectM) : ℚ × ℚ :=
  let ok := fun c => !spiralHasIntersections (spiralLabelRect labelText fontSize c)
    existingLabels allObjectBuffers polygonPointsRel
  match spiralScanRings orc startX startY ok ((List.range 75).map (fun k => 2 * k)) with
  | some c => c
  | none => (startX + 150, startY)

/-- Flattened candidate sequence of the whole spiral scan: rings of radius
0, 2, 4, …, 148 (strictly below the 150 px bound), each ring in index
order. -/
def spiralCandidates (orc : MathOracle) (startX startY : ℚ) : List (ℚ × ℚ) :=
  ((List.range 75).map (fun k => 2 * k)).flatMap (spiralRingCandidates orc startX startY)

/-! ## Data records and generator state

Entity dictionaries of the normalized data contract.  Absent dictionary
keys are modelled by the same defaults `dict.get` supplies in the source
(`Option` where the code distinguishes absence, default values where it
does not).  The generator instance state consists of the configuration and
the two mutable fields actually threaded through rendering: the
`used_legend_tokens` set and the `_boundary_segments_px` attribute
(`getattr` default `[]` before first assignment).  The token set is
modelled as a duplicate-free insertion list. -/

/-- Boundary point record (`{id, x, y, kind}`); `kind` is `none` when the
key is absent (`point.get('kind', 'EXISTING')`). -/
structure BPointM where
  x : ℚ := 0
  y : ℚ := 0
  kind : Option String := none
  deriving Repr, DecidableEq

/-- Kind with the `'EXISTING'` default applied. -/
def kindD (p : BPointM) : String := p.kind.getD "EXISTING"

/-- Parcel record (`{id, cadastral_number, designation, status, is_main}`)
with the `dict.get` defaults. -/
structure ParcelM where
  cadastralNumber : String := ""
  designation : String := ""
  status : Option String := none
  isMain : Bool := false
  deriving Repr, DecidableEq

/-- Station record (`{id, x, y, name, kind}`). -/
structure StationM where
  idStr : String := ""
  x : ℚ := 0
  y : ℚ := 0
  name : String := ""
  kind : Option String := none
  deriving Repr, DecidableEq

/-- Direction record (`{from_station_id, to_point_id, length_m_int, type}`). -/
structure DirectionM where
  fromStationId : String := ""
  toPointId : String := ""
  lengthMInt : ℤ := 0
  dirType : Option String := none
  deriving Repr, DecidableEq

/-- Normalized data contract (`cpp_data` with its `entities`). -/
structure CppData where
  parcels : List ParcelM := []
  boundaryPoints : List BPointM := []
  stations : List StationM := []
  directions : List DirectionM := []
  scalesAllowed : List ℤ := []
  deriving Repr, DecidableEq

/-- Point status enumeration, from `core/enums.py` (`PointStatus`). -/
inductive PointStatusM where
  | EXISTING
  | NEW
  | REMOVED
  deriving Repr, DecidableEq

/-- Mutable generator state of `SVGGraphicsGenerator`. -/
structure GenState where
  cfg : SVGConfigM
  usedLegendTokens : List String := []
  boundarySegmentsPx : List (ℚ × ℚ × ℚ × ℚ) := []
  deriving Repr, DecidableEq

/-- Freshly constructed generator (`__init__`): empty token set, the
boundary-segments attribute not yet assigned (`getattr` default `[]`). -/
def freshGenState (cfg : SVGConfigM) : GenState := { cfg := cfg }

/-- Set insertion for the legend-token set: membership-preserving, no
duplicates (Python `set.add`). -/
def tokenAdd (tokens : List String) (t : String) : List String :=
  if t ∈ tokens then tokens else tokens ++ [t]

/-! ## Primitive string builders

Numbers interpolated into SVG markup are rendered with `ratStr`, a fixed
injective stand-in for Python float formatting; the precise decimal text
is irrelevant to every claim settled here (the byte-identity claim
compares two runs of the same fixed formatter). -/

/-- Stand-in for Python float interpolation `f"{x}"`. -/
def ratStr (q : ℚ) : String := toString q

/-- Stand-in for Python int interpolation. -/
def intStr (n : ℤ) : String := toString n

/-- Python `f"{x:.1f}"`: one decimal, round half to even.  (For a negative
value rounding to zero Python keeps the sign; only nonnegative distances
are formatted in the embedded code paths.) -/
def pyFmt1 (q : ℚ) : String :=
  let n := pyRound (q * 10)
  let m := n.natAbs
  (if n < 0 then "-" else "") ++ toString (m / 10) ++ "." ++ toString (m % 10)

/-- Python `f"{x:.2f}"`: two decimals, round half to even. -/
def pyFmt2 (q : ℚ) : String :=
  let n := pyRound (q * 100)
  let m := n.natAbs
  let fr := m % 100
  (if n < 0 then "-" else "") ++ toString (m / 100) ++ "." ++
    (if fr < 10 then "0" ++ toString fr else toString fr)

/-- SVG line element, from `_create_line`; `strokeWidth = none` is the
Python default `f"{config.stroke_width}mm"`. -/
def createLine (cfg : SVGConfigM) (x1 y1 x2 y2 : ℚ) (stroke : String)
    (strokeWidth : Option String) (dash : Option String) : String :=
  let strokeW := match strokeWidth with
    | some s => s
    | none => ratStr cfg.strokeWidth ++ "mm"
  let dashAttr := match dash with
    | some d => " stroke-dasharray=\"" ++ d ++ "\""
    | none => ""
  "<line x1=\"" ++ ratStr x1 ++ "\" y1=\"" ++ ratStr y1 ++ "\" x2=\"" ++ ratStr x2 ++
    "\" y2=\"" ++ ratStr y2 ++ "\" stroke=\"" ++ stroke ++ "\" stroke-width=\"" ++
    strokeW ++ "\"" ++ dashAttr ++ "/>"

/-- SVG circle element, from `_create_circle`; `r = none` is the Python
default `f"{config.point_radius}mm"`. -/
def createCircle (cfg : SVGConfigM) (cx cy : ℚ) (r : Option String)
    (fill stroke : String) : String :=
  let radius := match r with
    | some s => s
    | none => ratStr cfg.pointRadius ++ "mm"
  "<circle cx=\"" ++ ratStr cx ++ "\" cy=\"" ++ ratStr cy ++ "\" r=\"" ++ radius ++
    "\" fill=\"" ++ fill ++ "\" stroke=\"" ++ stroke ++ "\"/>"

/-- SVG text element, from `_create_text`, with the font floor of
`createTextFontSize`. -/
def createText (cfg : SVGConfigM) (x y : ℚ) (text : String) (fill : String)
    (fontSize : Option ℤ) (textAnchor : String) : String :=
  "<text x=\"" ++ ratStr x ++ "\" y=\"" ++ ratStr y ++ "\" fill=\"" ++ fill ++
    "\" font-size=\"" ++ intStr (createTextFontSize cfg fontSize) ++
    "\" font-family=\"" ++ cfg.fontFamily ++ "\" text-anchor=\"" ++ textAnchor ++
    "\">" ++ text ++ "</text>"

/-- SVG triangle (GGS station), from `_create_triangle`; the height uses
`math.sqrt(3)` through the oracle. -/
def createTriangle (orc : MathOracle) (cx cy size : ℚ) (fill stroke : String)
    (strokeWidth : Option String) : String :=
  let h := size * orc.sqrtQ 3 / 2
  let pointsAttr := ratStr cx ++ "," ++ ratStr (cy - size) ++ " " ++
    ratStr (cx - size/2) ++ "," ++ ratStr (cy + h) ++ " " ++
    ratStr (cx + size/2) ++ "," ++ ratStr (cy + h)
  let sw := match strokeWidth with
    | none => ""
    | some s => " stroke-width=\"" ++ s ++ "\""
  "<polygon points=\"" ++ pointsAttr ++ "\" fill=\"" ++ fill ++ "\" stroke=\"" ++
    stroke ++ "\"" ++ sw ++ "/>"

/-- SVG square (OMS station), from `_create_square`. -/
def createSquare (cx cy size : ℚ) (fill stroke : String)
    (strokeWidth : Option String) : String :=
  let half := size / 2
  let sw := match strokeWidth with
    | none => ""
    | some s => " stroke-width=\"" ++ s ++ "\""
  "<rect x=\"" ++ ratStr (cx - half) ++ "\" y=\"" ++ ratStr (cy - half) ++
    "\" width=\"" ++ ratStr size ++ "\" height=\"" ++ ratStr size ++ "\" fill=\"" ++
    fill ++ "\" stroke=\"" ++ stroke ++ "\"" ++ sw ++ "/>"

/-- Boundary segment with status styling and its legend token, from
`_draw_boundary_segment`. -/
def drawBoundarySegment (cfg : SVGConfigM) (tokens : List String)
    (x1 y1 x2 y2 : ℚ) (status : BoundaryStatusM) : String × List String :=
  let strokeDashToken : String × Option String × String := match status with
    | .NEW => (cfg.red, none, "boundary-new")
    | .UNCERTAIN => (cfg.black, some "2mm 1mm", "boundary-uncertain")
    | .EXISTING => (cfg.black, none, "boundary-existing")
  (createLine cfg x1 y1 x2 y2 strokeDashToken.1 (some "0.2mm") strokeDashToken.2.1,
    tokenAdd tokens strokeDashToken.2.2)

/-- Orientation determinant of `_segments_intersect`. -/
def orientQ (px py qx qy rx ry : ℚ) : ℚ := (qy - py) * (rx - qx) - (qx - px) * (ry - qy)

/-- Segment intersection test, from `_segments_intersect` (proper crossing
plus the explicit collinear-overlap case). -/
def segmentsIntersectB (ax ay bx bY cx cy dx dY : ℚ) : Bool :=
  let o1 := orientQ ax ay bx bY cx cy
  let o2 := orientQ ax ay bx bY dx dY
  let o3 := orientQ cx cy dx dY ax ay
  let o4 := orientQ cx cy dx dY bx bY
  if o1 = 0 ∧ o2 = 0 ∧ o3 = 0 ∧ o4 = 0 then
    !(decide (max ax bx < min cx dx) || decide (max cx dx < min ax bx) ||
      decide (max ay bY < min cy dY) || decide (max cy dY < min ay bY))
  else decide (o1 * o2 ≤ 0) && decide (o3 * o4 ≤ 0)

/-- Leader-line collision test against the stored boundary segments, from
`_line_intersects_boundary` (reads `_boundary_segments_px`). -/
def lineIntersectsBoundary (segs : List (ℚ × ℚ × ℚ × ℚ)) (x1 y1 x2 y2 : ℚ) : Bool :=
  segs.any (fun s => segmentsIntersectB x1 y1 x2 y2 s.1 s.2.1 s.2.2.1 s.2.2.2)

/-- Comparison `sqrt s > t` translated exactly: true iff `t < 0` or
`t² < s` (for the `need_leader` threshold test of `_place_label`). -/
def sqrtGtB (s t : ℚ) : Bool := decide (t < 0) || decide (t^2 < s)

/-- Label with optional leader line, from `_place_label`: quadrant offsets
in priority order, first whose leader segment misses every stored boundary
segment; fallback offset (2, −2) mm; leader emitted iff the offset length
exceeds 0.8 mm; the font floor computation is character-for-character the
one in `createTextFontSize`. -/
def placeLabel (cfg : SVGConfigM) (segs : List (ℚ × ℚ × ℚ × ℚ)) (x y : ℚ)
    (text fill : String) (fontSize : Option ℤ) (textAnchor : String)
    (extraStyle : String) : String :=
  let offsetsMm : List (ℚ × ℚ) := [(1, -1), (-1, -1), (1, 1), (-1, 1)]
  let chosen := offsetsMm.find? (fun o =>
    let dx := mmToPx o.1 cfg.dpi
    let dy := mmToPx o.2 cfg.dpi
    !lineIntersectsBoundary segs x y (x + dx) (y - dy))
  let dxy := match chosen with
    | none => (mmToPx 2 cfg.dpi, mmToPx (-2) cfg.dpi)
    | some o => (mmToPx o.1 cfg.dpi, mmToPx o.2 cfg.dpi)
  let needLeader := sqrtGtB (dxy.1 * dxy.1 + dxy.2 * dxy.2) (mmToPx (4/5) cfg.dpi)
  let styleAttr := if extraStyle ≠ "" then " style=\"" ++ extraStyle ++ "\"" else ""
  let textEl := "<text x=\"" ++ ratStr (x + dxy.1) ++ "\" y=\"" ++ ratStr (y - dxy.2) ++
    "\" fill=\"" ++ fill ++ "\" font-size=\"" ++ intStr (createTextFontSize cfg fontSize) ++
    "\" font-family=\"" ++ cfg.fontFamily ++ "\" text-anchor=\"" ++ textAnchor ++ "\"" ++
    styleAttr ++ ">" ++ text ++ "</text>"
  if needLeader then
    createLine cfg x y (x + dxy.1) (y - dxy.2) fill (some (ratStr cfg.strokeWidth ++ "mm"))
      none ++ "\n" ++ textEl
  else textEl

/-- Characteristic point with label, from `_draw_point`. -/
def drawPoint (cfg : SVGConfigM) (tokens : List String) (x y : ℚ)
    (status : PointStatusM) (label : String) : String × List String :=
  let color := if status = .NEW then cfg.red else cfg.black
  let txt := if status = .NEW && !(label.startsWith "н" || label.startsWith "Н")
    then "н" ++ label else label
  let dx := mmToPx (4/5) cfg.dpi
  let dy := mmToPx (4/5) cfg.dpi
  let circle := createCircle cfg x y (some (ratStr (3/4) ++ "mm")) color "none"
  let fontSz := max cfg.fontSize (minFontPx cfg)
  let styleExtra := if status = .REMOVED
    then " font-style=\"italic\" text-decoration=\"underline\"" else ""
  let textEl := "<text x=\"" ++ ratStr (x + dx) ++ "\" y=\"" ++ ratStr (y - dy) ++
    "\" fill=\"" ++ color ++ "\" font-size=\"" ++ intStr fontSz ++
    "\" font-family=\"" ++ cfg.fontFamily ++ "\" text-anchor=\"start\"" ++ styleExtra ++
    ">" ++ txt ++ "</text>"
  let token := match status with
    | .NEW => "point-new"
    | .REMOVED => "point-removed"
    | .EXISTING => "point-existing"
  (circle ++ "\n" ++ textEl, tokenAdd tokens token)

/-! ## Parcel label formatting used by the composers -/

/-- Stand-in for Python `str.strip()` (whitespace trim). -/
def pyStrip (s : String) : String := s.trim

/-- Parcel designation text, from `ParcelLabelFormatter.build_parcel_label`. -/
def buildParcelLabel (parcel : ParcelM) : String :=
  let cadnum := parcel.cadastralNumber
  let designation := pyStrip parcel.designation
  if cadnum ≠ "" then
    let lastPart := if cadnum.contains ':' then (cadnum.splitOn ":").getLastD "" else cadnum
    let lastPart := pyStrip lastPart
    if lastPart ≠ "" then ":" ++ lastPart else ":ЗУ"
  else if designation ≠ "" then
    (if designation.startsWith ":" then designation else ":" ++ designation)
  else ":ЗУ"

/-- Shortening of over-long parcel labels (`generate_parcel_graphics` and
`generate_scheme_graphics`): for more than 20 characters keep the part
after the last slash, else the last 20 characters. -/
def shortenLabel (label : String) : String :=
  if 20 < label.length then
    if label.contains '/' then (label.splitOn "/").getLastD ""
    else label.drop (label.length - 20)
  else label

/-- Main-parcel selection shared by the composers: parcels with `is_main`
or status NEW, else the first parcel. -/
def mainParcelsOf (parcels : List ParcelM) : List ParcelM :=
  let main := parcels.filter (fun p => p.isMain || p.status == some "NEW")
  if main.isEmpty then parcels.take 1 else main

/-! ## DRAWING composer (`generate_parcel_graphics`) -/

/-- Segment strings, boundary-segment pixel list and tokens of the DRAWING
boundary loop (`for i in range(n): j = (i+1) % n; …`). -/
def parcelBoundaryLoop (cfg : SVGConfigM) (tokens : List String)
    (normalized : List (ℚ × ℚ)) (kinds : List String) :
    (List String × List (ℚ × ℚ × ℚ × ℚ)) × List String :=
  ((ringSegs normalized).zip (ringSegs kinds)).foldl
    (fun acc sk =>
      ((acc.1.1 ++ [(drawBoundarySegment cfg acc.2 sk.1.1.1 sk.1.1.2 sk.1.2.1 sk.1.2.2
          (segStatus sk.2.1 sk.2.2)).1],
        acc.1.2 ++ [(sk.1.1.1, sk.1.1.2, sk.1.2.1, sk.1.2.2)]),
        (drawBoundarySegment cfg acc.2 sk.1.1.1 sk.1.1.2 sk.1.2.1 sk.1.2.2
          (segStatus sk.2.1 sk.2.2)).2))
    (([], []), tokens)

/-- Point strings and tokens of the DRAWING point loop, with the
per-status `created_index`/`existing_index` numbering. -/
def parcelPointLoop (cfg : SVGConfigM) (tokens : List String)
    (points : List BPointM) (normalized : List (ℚ × ℚ)) (skipPointLabels : Bool) :
    List String × List String :=
  let step := fun (acc : (List String × ℕ × ℕ) × List String) (pc : BPointM × (ℚ × ℚ)) =>
    let x := pc.2.1
    let y := pc.2.2
    let kind := kindD pc.1
    let stLbl : PointStatusM × ℕ × ℕ :=
      if isNewKind kind then (.NEW, acc.1.2.1 + 1, acc.1.2.2)
      else if kind = "REMOVED" then (.REMOVED, acc.1.2.1, acc.1.2.2 + 1)
      else (.EXISTING, acc.1.2.1, acc.1.2.2 + 1)
    let status := stLbl.1
    let lbl := if status = .NEW then toString stLbl.2.1 else toString stLbl.2.2
    let el := if skipPointLabels then
        createCircle cfg x y (some (ratStr (3/4) ++ "mm"))
          (if status = .NEW then cfg.red else cfg.black) "none"
      else (drawPoint cfg acc.2 x y status lbl).1
    let toks2 := if skipPointLabels then
        tokenAdd acc.2 (if status = .NEW then "point-new"
          else if status = .REMOVED then "point-removed" else "point-existing")
      else (drawPoint cfg acc.2 x y status lbl).2
    ((acc.1.1 ++ [el], stLbl.2.1, stLbl.2.2), toks2)
  let r := (points.zip normalized).foldl step (([], 0, 0), tokens)
  (r.1.1, r.2)

/-- DRAWING composer, from `generate_parcel_graphics`: empty parcels or
points short-circuit to the empty string; the boundary loop resets
`_boundary_segments_px` before `_place_label` reads it. -/
def generateParcelGraphics (s : GenState) (parcels : List ParcelM)
    (points : List BPointM) (skipPointLabels : Bool) : String × GenState :=
  if parcels.isEmpty || points.isEmpty then ("", s)
  else
    let cfg := s.cfg
    let coords := points.map (fun p => (p.x, p.y))
    let normalized := (normalizeCoordinates cfg coords).1
    let mainParcels := mainParcelsOf parcels
    let bl := if !mainParcels.isEmpty
      then parcelBoundaryLoop cfg s.usedLegendTokens normalized (points.map kindD)
      else (([], s.boundarySegmentsPx), s.usedLegendTokens)
    let segStrs := bl.1.1
    let segsPx := bl.1.2
    let pl := parcelPointLoop cfg bl.2 points normalized skipPointLabels
    let labelPart : List String :=
      match mainParcels with
      | [] => []
      | parcel :: _ =>
        let label := buildParcelLabel parcel
        if label ≠ "" then
          [placeLabel cfg segsPx ((cfg.width : ℚ) / 2) ((cfg.height : ℚ) / 2)
            (shortenLabel label) cfg.black (some 16) "middle" ""]
        else []
    (String.intercalate "\n" (segStrs ++ pl.1 ++ labelPart),
      { cfg := cfg, usedLegendTokens := pl.2, boundarySegmentsPx := segsPx })

/-! ## SCHEME composer (`generate_scheme_graphics`) -/

/-- SCHEME composer, from `generate_scheme_graphics`: binary red/gray
segment styling with `target`/`adjacent` tokens, plain 2 mm points, a
centred parcel label. -/
def generateSchemeGraphics (s : GenState) (parcels : List ParcelM)
    (points : List BPointM) : String × GenState :=
  if parcels.isEmpty || points.isEmpty then ("", s)
  else
    let cfg := s.cfg
    let coords := points.map (fun p => (p.x, p.y))
    let normalized := (normalizeCoordinates cfg coords).1
    let mainParcels := mainParcelsOf parcels
    let seg := if !mainParcels.isEmpty && 3 ≤ normalized.length then
        ((ringSegs normalized).zip (ringSegs (points.map kindD))).foldl
          (fun acc sk =>
            let (p1, p2) := sk.1
            let (k1, k2) := sk.2
            let strokeTok := if isNewKind k1 || isNewKind k2
              then (cfg.red, "target") else ("#808080", "adjacent")
            (acc.1 ++ [createLine cfg p1.1 p1.2 p2.1 p2.2 strokeTok.1 (some "2.5mm") none],
              tokenAdd acc.2 strokeTok.2))
          ([], s.usedLegendTokens)
      else ([], s.usedLegendTokens)
    let pointEls := normalized.map (fun c =>
      createCircle cfg c.1 c.2 (some "2mm") "#000000" "none")
    let lbl : List String × List String :=
      match mainParcels with
      | [] => ([], seg.2)
      | parcel :: _ =>
        let label := buildParcelLabel parcel
        if label ≠ "" then
          ([createText cfg ((cfg.width : ℚ) / 2) ((cfg.height : ℚ) / 2)
              (shortenLabel label) cfg.black (some 9) "middle"],
            tokenAdd seg.2 "label-parcel")
        else ([], seg.2)
    (String.intercalate "\n" (seg.1 ++ pointEls ++ lbl.1),
      { s with usedLegendTokens := lbl.2 })

/-! ## SGP composer (`generate_sgp_graphics`)

The composer temporarily overrides `config.width/height` with the integer
workarea size and restores them before returning; the embedding uses the
overridden copy `cfg2` throughout and returns the untouched original
configuration in the final state.  The single genuine exception path — the
`ZeroDivisionError` when the buffer-zone rescale divides by a degenerate
parcel extent — is the `none` result of `sgpLayout`. -/

/-- Python `str.upper()` (ASCII data in play). -/
def pyUpper (s : String) : String := s.map Char.toUpper

/-- Python `opt or default` for string options (None and `""` are falsy). -/
def pyOrStr (v : Option String) (dflt : String) : String :=
  match v with
  | none => dflt
  | some s => if s = "" then dflt else s

/-- Working configuration of the SGP composer: `config.width/height`
replaced by `int(workarea_w), int(workarea_h)`. -/
def sgpWorkCfg (cfg : SVGConfigM) : SVGConfigM :=
  { cfg with width := pyInt (workareaSizePx cfg).1, height := pyInt (workareaSizePx cfg).2 }

/-- Contour layout of the SGP composer (source steps: normalize, shrink to
70 % when at least 3 vertices, rescale when the 150 px buffer zone
overflows the workarea — `ZeroDivisionError`/`none` on a zero parcel
extent — then centre).  Returns the final ring coordinates and the pixel
centre `(cx_px, cy_px)`.  The empty-contour case is unreachable (callers
guard) and maps the Python `ValueError` of `min([])` to `none`. -/
def sgpLayout (cfg2 : SVGConfigM) (points : List BPointM) :
    Option (List (ℚ × ℚ) × ℚ × ℚ) :=
  let coords := points.map (fun p => (p.x, p.y))
  let normPts0 := (normalizeCoordinates cfg2 coords).1
  let normPts1 := if 3 ≤ normPts0.length then
      let cxTmp := (normPts0.map Prod.fst).sum / normPts0.length
      let cyTmp := (normPts0.map Prod.snd).sum / normPts0.length
      normPts0.map (fun c => (cxTmp + (c.1 - cxTmp) * (7/10), cyTmp + (c.2 - cyTmp) * (7/10)))
    else normPts0
  match normPts1 with
  | [] => none
  | q :: qs =>
    let minX := foldMin q.1 (qs.map Prod.fst)
    let maxX := foldMax q.1 (qs.map Prod.fst)
    let minY := foldMin q.2 (qs.map Prod.snd)
    let maxY := foldMax q.2 (qs.map Prod.snd)
    let parcelW := maxX - minX
    let parcelH := maxY - minY
    let centerX := (minX + maxX) / 2
    let centerY := (minY + maxY) / 2
    let requiredW := parcelW + 2 * 150
    let requiredH := parcelH + 2 * 150
    if (cfg2.width : ℚ) < requiredW ∨ (cfg2.height : ℚ) < requiredH then
      if parcelW = 0 ∨ parcelH = 0 then none
      else
        let scaleFactor := min (((cfg2.width : ℚ) - 2 * 150) / parcelW)
          (((cfg2.height : ℚ) - 2 * 150) / parcelH)
        let nq := (centerX + (q.1 - centerX) * scaleFactor, centerY + (q.2 - centerY) * scaleFactor)
        let nqs := qs.map (fun c =>
          (centerX + (c.1 - centerX) * scaleFactor, centerY + (c.2 - centerY) * scaleFactor))
        let minX2 := foldMin nq.1 (nqs.map Prod.fst)
        let maxX2 := foldMax nq.1 (nqs.map Prod.fst)
        let minY2 := foldMin nq.2 (nqs.map Prod.snd)
        let maxY2 := foldMax nq.2 (nqs.map Prod.snd)
        let centerX2 := (minX2 + maxX2) / 2
        let centerY2 := (minY2 + maxY2) / 2
        let shiftX := (cfg2.width : ℚ) / 2 - centerX2
        let shiftY := (cfg2.height : ℚ) / 2 - centerY2
        some ((nq :: nqs).map (fun c => (c.1 + shiftX, c.2 + shiftY)),
          centerX2 + shiftX, centerY2 + shiftY)
    else
      let shiftX := (cfg2.width : ℚ) / 2 - centerX
      let shiftY := (cfg2.height : ℚ) / 2 - centerY
      some ((q :: qs).map (fun c => (c.1 + shiftX, c.2 + shiftY)),
        centerX + shiftX, centerY + shiftY)

/-- Station-ring radius, from the `ring_r` computation: the maximal vertex
distance from the centre plus a 40 px buffer, clipped so stations and
labels (80 px pad) stay inside the workarea, never below 10 px. -/
def sgpRingR (orc : MathOracle) (cfg2 : SVGConfigM) (pts : List (ℚ × ℚ))
    (cxPx cyPx : ℚ) : ℚ :=
  let maxDist := (pts.map (fun c =>
    orc.sqrtQ ((c.1 - cxPx)^2 + (c.2 - cyPx)^2))).foldl max 0
  let ringR := maxDist + 40
  let maxRLeft := max 10 (cxPx - 80)
  let maxRUp := max 10 (cyPx - 80)
  let maxRRight := max 10 ((cfg2.width : ℚ) - cxPx - 80)
  let maxRDown := max 10 ((cfg2.height : ℚ) - cyPx - 80)
  min (min (min (min (max ringR (maxDist + 40)) maxRLeft) maxRUp) maxRRight) maxRDown

/-- Arrow-marker definitions block of the SGP sheet (Python adjacent
string literals concatenate without separators). -/
def sgpArrowDefs : String :=
  "<defs>" ++
  "  <marker id=\"sgp-arrow\" markerWidth=\"6\" markerHeight=\"6\" refX=\"5\" refY=\"3\" orient=\"auto\" markerUnits=\"strokeWidth\">" ++
  "    <path d=\"M0,0 L0,6 L6,3 z\" fill=\"#0077CC\" />" ++
  "  </marker>" ++
  "</defs>"

/-- Direction line with the arrowhead marker, from the station loop:
Python applies `line.replace('/>', ' marker-end="url(#sgp-arrow)"/>')` to
the `_create_line` output (stroke `config.blue`, stroke-width `0.2mm`, no
dash), whose single occurrence of `/>` is its final two characters, so
the replacement rebuilds the line with the marker attribute spliced in
before the closing — written here directly as the resulting string. -/
def sgpMarkedLine (cfg2 : SVGConfigM) (x1 y1 x2 y2 : ℚ) : String :=
  "<line x1=\"" ++ ratStr x1 ++ "\" y1=\"" ++ ratStr y1 ++ "\" x2=\"" ++ ratStr x2 ++
    "\" y2=\"" ++ ratStr y2 ++ "\" stroke=\"" ++ cfg2.blue ++ "\" stroke-width=\"" ++
    "0.2mm" ++ "\"" ++ " marker-end=\"url(#sgp-arrow)\"/>"

/-- Recognizer for direction-line markup: an SVG element whose tag is
`line` (first five characters `<line`); distinguishes the one direction
line of a station from its symbol, name and distance-label elements. -/
def isDirLine (e : String) : Bool := decide (e.data.take 5 = String.data "<line")

/-- Per-station markup of the SGP station loop: ring placement by true
azimuth, GGS triangle or OMS square symbol with its token, optional name
label, and — when a first boundary point exists — exactly one direction
line to its on-page position with the real metric distance (from the
original station and point coordinates) formatted to one decimal; the
`geodir-determine` token is always recorded. -/
def sgpStationParts (orc : MathOracle) (cfg2 : SVGConfigM) (tokens : List String)
    (cxPx cyPx cxM cyM ringR : ℚ) (pointN1 : Option BPointM)
    (pointN1Coords : Option (ℚ × ℚ)) (st : StationM) : List String × List String :=
  let sxM := st.x
  let syM := st.y
  let ang := orc.atan2Q (syM - cyM) (sxM - cxM)
  let sx := cxPx + ringR * orc.cosQ ang
  let sy := cyPx + ringR * orc.sinQ ang
  let kind := pyUpper (pyOrStr st.kind "OMS")
  let symParts : List String := if kind = "GGS" then
      [createTriangle orc sx sy 5 "#fff" cfg2.blue (some "0.5mm")]
    else
      [createSquare sx sy 4 "#fff" cfg2.blue (some "0.5mm"),
        createCircle cfg2 sx sy (some (ratStr (4/5))) cfg2.blue "none"]
  let symTokens : List String := if kind = "GGS" then tokenAdd tokens "ggs"
    else tokenAdd tokens "oms"
  let stName := if st.name ≠ "" then st.name else st.idStr
  let nameParts := if stName ≠ "" then
      [createText cfg2 (sx + 6) (sy - 6) stName cfg2.blue (some (cfg2.fontSize - 1)) "start"]
    else []
  let dirParts : List String := match pointN1Coords with
    | some p0c =>
      let p0 := pointN1.getD {}
      let realDistance := orc.sqrtQ ((sxM - p0.x)^2 + (syM - p0.y)^2)
      let lineMarked := sgpMarkedLine cfg2 sx sy p0c.1 p0c.2
      let midX := (sx + p0c.1) / 2
      let midY := (sy + p0c.2) / 2
      [lineMarked,
        createText cfg2 midX (midY - 8) (pyFmt1 realDistance ++ " м") cfg2.blue
          (some (cfg2.fontSize - 2)) "middle"]
    | none => []
  (symParts ++ nameParts ++ dirParts, tokenAdd symTokens "geodir-determine")

/-- Point buffer of the SGP label system (8 px pad around the circle). -/
def sgpPointBbox (x y radiusPx : ℚ) : RectM :=
  { x0 := x - radiusPx - 8, y0 := y - radiusPx - 8
    x1 := x + radiusPx + 8, y1 := y + radiusPx + 8 }

/-- Boundary buffer zones of the SGP label system: an 8 px buffer laid
perpendicular to each ring segment (bbox of the four offset corners); the
segment length passes through `math.sqrt`. -/
def sgpBoundaryBufferZones (orc : MathOracle) (poly : List (ℚ × ℚ)) : List RectM :=
  (ringSegs poly).map (fun s =>
    let x1 := s.1.1
    let y1 := s.1.2
    let x2 := s.2.1
    let y2 := s.2.2
    let dx := x2 - x1
    let dy := y2 - y1
    let len := orc.sqrtQ (dx * dx + dy * dy)
    if 0 < len then
      let perpX := -(dy / len) * 8
      let perpY := (dx / len) * 8
      let xs := [x1 + perpX, x1 - perpX, x2 - perpX, x2 + perpX]
      let ys := [y1 + perpY, y1 - perpY, y2 - perpY, y2 + perpY]
      { x0 := foldMin (x1 + perpX) xs.tail, y0 := foldMin (y1 + perpY) ys.tail
        x1 := foldMax (x1 + perpX) xs.tail, y1 := foldMax (y1 + perpY) ys.tail }
    else
      { x0 := min x1 x2 - 8, y0 := min y1 y2 - 8
        x1 := max x1 x2 + 8, y1 := max y1 y2 + 8 })

/-- Per-point data of the SGP label system: position, label text (`н{i+1}`
for NEW/CREATED, `{i+1}` otherwise), colour, status, radius and legend
tokens, indexed over the contour order. -/
structure SGPPointD where
  x : ℚ
  y : ℚ
  label : String
  color : String
  status : PointStatusM
  radiusPx : ℚ
  deriving Repr, DecidableEq

/-- Point-data pass of the SGP composer (the `point_data` loop). -/
def sgpPointData (cfg2 : SVGConfigM) (tokens : List String) (points : List BPointM)
    (pts : List (ℚ × ℚ)) : List SGPPointD × List String :=
  ((points.zip pts).enum).foldl
    (fun acc ipr =>
      let i := ipr.1
      let bp := ipr.2.1
      let c := ipr.2.2
      let kind := kindD bp
      let pdRec : SGPPointD :=
        if isNewKind kind then
          { x := c.1, y := c.2, label := "н" ++ toString (i + 1), color := cfg2.red,
            status := .NEW, radiusPx := mmToPx (3/4) cfg2.dpi }
        else if kind = "REMOVED" then
          { x := c.1, y := c.2, label := toString (i + 1), color := cfg2.black,
            status := .REMOVED, radiusPx := mmToPx (3/4) cfg2.dpi }
        else
          { x := c.1, y := c.2, label := toString (i + 1), color := cfg2.black,
            status := .EXISTING, radiusPx := mmToPx (3/4) cfg2.dpi }
      let toks2 := if isNewKind kind then
          tokenAdd (tokenAdd acc.2 "point-new") "label-point-new"
        else if kind = "REMOVED" then tokenAdd acc.2 "point-removed"
        else tokenAdd (tokenAdd acc.2 "point-existing") "label-point-existing"
      (acc.1 ++ [pdRec], toks2))
    ([], tokens)

/-- Squared distance between two points. -/
def dist2 (a b : ℚ × ℚ) : ℚ := (a.1 - b.1)^2 + (a.2 - b.2)^2

/-- Cluster detection, from `_detect_point_clusters`: greedy grouping of
points within `cluster_radius` of a seed, in index order.  The Python
`sqrt(d2) <= r` test (r = 30 ≥ 0) is the exact squared comparison. -/
def detectPointClusters (pts : List (ℚ × ℚ)) (clusterRadius : ℚ) : List (List ℕ) :=
  let n := pts.length
  ((List.range n).foldl
    (fun (acc : List (List ℕ) × List ℕ) i =>
      if i ∈ acc.2 then acc
      else
        let pi := pts.getD i (0, 0)
        let members := (List.range n).filter (fun j =>
          decide (i < j) && decide (j ∉ acc.2) &&
          decide (dist2 pi (pts.getD j (0, 0)) ≤ clusterRadius^2))
        (acc.1 ++ [i :: members], acc.2 ++ i :: members))
    ([], [])).1

/-- Fan directions for multi-point clusters: association list from point
index to its fan unit vector (`_get_fan_angles` composed with `cos`/`sin`
through the oracle), base bearing from `(cx, cy)` to the cluster mean. -/
def fanDirections (orc : MathOracle) (pts : List (ℚ × ℚ)) (clusters : List (List ℕ))
    (cx cy : ℚ) : List (ℕ × (ℚ × ℚ)) :=
  clusters.flatMap (fun cl =>
    if 1 < cl.length then
      let meanX := (cl.map (fun idx => (pts.getD idx (0, 0)).1)).sum / cl.length
      let meanY := (cl.map (fun idx => (pts.getD idx (0, 0)).2)).sum / cl.length
      cl.enum.map (fun ki =>
        (ki.2, orc.fanUnit (meanX - cx) (meanY - cy) cl.length ki.1))
    else [])

/-- Label direction for one point: the fan direction when the point sits
in a multi-point cluster, else outward from the centre (normalized through
the oracle square root), else the fallback `(1, 0)`. -/
def labelDirection (orc : MathOracle) (assoc : List (ℕ × (ℚ × ℚ))) (i : ℕ)
    (px py cx cy : ℚ) : ℚ × ℚ :=
  match (assoc.find? (fun e => e.1 == i)).map Prod.snd with
  | some v => v
  | none =>
    let dx := px - cx
    let dy := py - cy
    let dist := orc.sqrtQ (dx^2 + dy^2)
    if 1/10 < dist then (dx / dist, dy / dist) else (1, 0)

/-- Candidate placement near a point, from `_find_position_near_point`:
five candidates (exact position, right, above, left, below), first that
hits no placed-label bbox, no object buffer, and whose rectangle centre
and corners all lie outside the polygon; fallback to the start position. -/
def findPositionNearPoint (labelText : String) (fontSize : ℚ) (startX startY : ℚ)
    (buffers existingLabels : List RectM) (poly : List (ℚ × ℚ)) : ℚ × ℚ :=
  let hasInter := fun (r : RectM) =>
    existingLabels.any (fun l => bboxesIntersect r l) ||
    buffers.any (fun b => bboxesIntersect r b)
  let insidePoly := fun (r : RectM) =>
    pointInsidePolygon ((r.x0 + r.x1) / 2) ((r.y0 + r.y1) / 2) poly ||
    [(r.x0, r.y0), (r.x1, r.y0), (r.x1, r.y1), (r.x0, r.y1)].any
      (fun c => pointInsidePolygon c.1 c.2 poly)
  let candidates : List (ℚ × ℚ) := [(startX, startY), (startX + 8, startY),
    (startX, startY - 8), (startX - 8, startY), (startX, startY + 8)]
  match candidates.find? (fun c =>
      let r := spiralLabelRect labelText fontSize c
      !hasInter r && !insidePoly r) with
  | some c => c
  | none => (startX, startY)

/-- Label-position pass of the SGP composer: for each point, direction,
start offset `radius + 4`, near-point search against buffers and already
placed labels, and the accepted bbox appended to the obstacle list. -/
def sgpLabelPositions (orc : MathOracle) (cfg2 : SVGConfigM)
    (pointData : List SGPPointD) (normPts : List (ℚ × ℚ)) (buffers : List RectM)
    (assoc : List (ℕ × (ℚ × ℚ))) (cxPx cyPx : ℚ) : List (ℚ × ℚ) :=
  let fontSizePx : ℚ := cfg2.fontSize
  ((pointData.enum).foldl
    (fun (acc : List (ℚ × ℚ) × List RectM) ipd =>
      let i := ipd.1
      let pd := ipd.2
      let dir := labelDirection orc assoc i pd.x pd.y cxPx cyPx
      let baseOffset := pd.radiusPx + 4
      let startX := pd.x + dir.1 * baseOffset
      let startY := pd.y + dir.2 * baseOffset
      let pos := findPositionNearPoint pd.label fontSizePx startX startY buffers acc.2 normPts
      (acc.1 ++ [pos], acc.2 ++ [spiralLabelRect pd.label fontSizePx pos]))
    ([], [])).1

/-- Final point/label markup of the SGP composer: the point circle, then
the label (REMOVED labels italic underlined at the raw configured size,
others through `_create_text`). -/
def sgpPointParts (cfg2 : SVGConfigM) (pointData : List SGPPointD)
    (positions : List (ℚ × ℚ)) : List String :=
  (pointData.zip positions).flatMap (fun pp =>
    let pd := pp.1
    let lp := pp.2
    [createCircle cfg2 pd.x pd.y (some (ratStr (3/4) ++ "mm")) pd.color "none",
      if pd.status = .REMOVED then
        "<text x=\"" ++ ratStr lp.1 ++ "\" y=\"" ++ ratStr lp.2 ++ "\" fill=\"" ++
          pd.color ++ "\" font-size=\"" ++ intStr cfg2.fontSize ++ "\" font-family=\"" ++
          cfg2.fontFamily ++ "\" text-anchor=\"start\" font-style=\"italic\" text-decoration=\"underline\">" ++
          pd.label ++ "</text>"
      else createText cfg2 lp.1 lp.2 pd.label pd.color (some cfg2.fontSize) "start"])

/-- Contour-segment loop of the SGP composer (status-classified boundary
segments with their legend tokens). -/
def sgpContourLoop (cfg2 : SVGConfigM) (tokens : List String)
    (normPts : List (ℚ × ℚ)) (kinds : List String) : List String × List String :=
  ((ringSegs normPts).zip (ringSegs kinds)).foldl
    (fun acc sk =>
      (acc.1 ++ [(drawBoundarySegment cfg2 acc.2 sk.1.1.1 sk.1.1.2 sk.1.2.1 sk.1.2.2
        (segStatus sk.2.1 sk.2.2)).1],
        (drawBoundarySegment cfg2 acc.2 sk.1.1.1 sk.1.1.2 sk.1.2.1 sk.1.2.2
          (segStatus sk.2.1 sk.2.2)).2))
    ([], tokens)

/-- Station loop of the SGP composer. -/
def sgpStationLoop (orc : MathOracle) (cfg2 : SVGConfigM) (tokens : List String)
    (cxPx cyPx cxM cyM ringR : ℚ) (pointN1 : Option BPointM)
    (pointN1Coords : Option (ℚ × ℚ)) (stations : List StationM) :
    List String × List String :=
  stations.foldl
    (fun (acc : List String × List String) st =>
      (acc.1 ++ (sgpStationParts orc cfg2 acc.2 cxPx cyPx cxM cyM ringR pointN1
        pointN1Coords st).1,
        (sgpStationParts orc cfg2 acc.2 cxPx cyPx cxM cyM ringR pointN1
          pointN1Coords st).2))
    ([], tokens)

/-- SGP composer, from `generate_sgp_graphics`.  `none` is the
`ZeroDivisionError` escaping from the buffer-zone rescale; the restored
original configuration is returned in the final state. -/
def generateSgpGraphics (orc : MathOracle) (s : GenState) (_parcels : List ParcelM)
    (stations : List StationM) (_directions : List DirectionM)
    (points : List BPointM) : Option (String × GenState) :=
  if points.isEmpty then some ("", s)
  else
    let cfg2 := sgpWorkCfg s.cfg
    match sgpLayout cfg2 points with
    | none => none
    | some lay =>
      let normPts := lay.1
      let cxPx := lay.2.1
      let cyPx := lay.2.2
      let cxM := (points.map (fun p => p.x)).sum / points.length
      let cyM := (points.map (fun p => p.y)).sum / points.length
      let contour : List String × List String := if 2 ≤ normPts.length then
          sgpContourLoop cfg2 s.usedLegendTokens normPts (points.map kindD)
        else ([], s.usedLegendTokens)
      let ringR := sgpRingR orc cfg2 normPts cxPx cyPx
      let stationAcc := sgpStationLoop orc cfg2 contour.2 cxPx cyPx cxM cyM ringR
        points.head? normPts.head? stations
      let pointBboxes := normPts.map (fun c =>
        sgpPointBbox c.1 c.2 (mmToPx (3/4) cfg2.dpi))
      let allBuffers := pointBboxes ++ sgpBoundaryBufferZones orc normPts
      let pd := sgpPointData cfg2 stationAcc.2 points normPts
      let clusters := detectPointClusters normPts 30
      let assoc := fanDirections orc normPts clusters cxPx cyPx
      let positions := sgpLabelPositions orc cfg2 pd.1 normPts allBuffers assoc cxPx cyPx
      let allParts := contour.1 ++ [sgpArrowDefs] ++ stationAcc.1 ++
        sgpPointParts cfg2 pd.1 positions
      some (String.intercalate "\n" allParts,
        { cfg := s.cfg, usedLegendTokens := pd.2,
          boundarySegmentsPx := s.boundarySegmentsPx })

/-! ## CH pagination (`generate_drawings_paginated`) and dispatch

Numbers interpolated with `:.2f` use `pyFmt2`.  The geometry stage
(`chGeom`) carries the two Python exception points of the pagination:
a zero first allowed scale and a zero workarea dimension would raise
`ZeroDivisionError`, modelled as `none`. -/

/-- Pagination geometry: metric bbox, scale, pixel sizes, centring
offsets and tile grid of `generate_drawings_paginated`. -/
structure ChGeom where
  pxPerMeter : ℚ
  minX : ℚ
  minY : ℚ
  contentHpx : ℚ
  offsetX : ℚ
  offsetY : ℚ
  waW : ℚ
  waH : ℚ
  cols : ℕ
  rows : ℕ
  deriving Repr, DecidableEq

/-- Metres-to-pixels transform `to_px` (SVG y grows downward). -/
def chToPx (g : ChGeom) (xm ym : ℚ) : ℚ × ℚ :=
  ((xm - g.minX) * g.pxPerMeter + g.offsetX,
   g.contentHpx - (ym - g.minY) * g.pxPerMeter + g.offsetY)

/-- Geometry stage of the pagination (requires a nonempty point list,
which the caller guarantees): bbox, scale `S` = first entry of
`scales_allowed` (empty list replaced by `[500]`), content pixel size,
centring offsets, and `cols`/`rows = max(1, ceil(content/workarea))`. -/
def chGeom (cfg : SVGConfigM) (scalesAllowed : List ℤ) (p : BPointM)
    (ps : List BPointM) : Option ChGeom :=
  let minX := foldMin p.x (ps.map (fun q => q.x))
  let maxX := foldMax p.x (ps.map (fun q => q.x))
  let minY := foldMin p.y (ps.map (fun q => q.y))
  let maxY := foldMax p.y (ps.map (fun q => q.y))
  let widthM := max (1/10^6) (maxX - minX)
  let heightM := max (1/10^6) (maxY - minY)
  let wa := workareaSizePx cfg
  let scaleList := if scalesAllowed.isEmpty then [500] else scalesAllowed
  let S : ℚ := (scaleList.headD 500 : ℤ)
  if S = 0 then none
  else
    let pxPerMeter := mmToPx 1 cfg.dpi * 1000 / S
    let contentW := widthM * pxPerMeter
    let contentH := heightM * pxPerMeter
    let offsetX := if contentW < wa.1 then max 0 ((wa.1 - contentW) / 2) else 0
    let offsetY := if contentH < wa.2 then max 0 ((wa.2 - contentH) / 2) else 0
    if wa.1 = 0 ∨ wa.2 = 0 then none
    else some
      { pxPerMeter := pxPerMeter, minX := minX, minY := minY, contentHpx := contentH
        offsetX := offsetX, offsetY := offsetY, waW := wa.1, waH := wa.2
        cols := max 1 (Int.ceil (contentW / wa.1)).toNat
        rows := max 1 (Int.ceil (contentH / wa.2)).toNat }

/-- Per-point data of one CH tile. -/
structure ChPointD where
  xAbs : ℚ
  yAbs : ℚ
  xRel : ℚ
  yRel : ℚ
  label : String
  color : String
  radiusMm : ℚ
  radiusPx : ℚ
  deriving Repr, DecidableEq

/-- CH point buffer, from the tile-local `get_point_bbox`
(`buffer = radius + 6`). -/
def chPointBbox (x y radiusPx : ℚ) : RectM :=
  { x0 := x - (radiusPx + 6), y0 := y - (radiusPx + 6)
    x1 := x + (radiusPx + 6), y1 := y + (radiusPx + 6) }

/-- CH boundary buffers, from the tile-local `get_boundary_buffer_zones`
with `get_line_buffer_bbox` (plain min/max bbox with 8 px margin; applied
to the absolute ring coordinates, as in the source). -/
def chBoundaryBufferZones (poly : List (ℚ × ℚ)) : List RectM :=
  (ringSegs poly).map (fun s =>
    { x0 := min s.1.1 s.2.1 - 8, y0 := min s.1.2 s.2.2 - 8
      x1 := max s.1.1 s.2.1 + 8, y1 := max s.1.2 s.2.2 + 8 })

/-- CH accepted-label bbox, from the tile-local `get_label_bbox`
(baseline-anchored, padding 6). -/
def chLabelBbox (x y : ℚ) (text : String) (fontSize : ℚ) : RectM :=
  { x0 := x - 6, y0 := y - fontSize - 6
    x1 := x + (text.length : ℚ) * (fontSize * (3/5)) + 6, y1 := y + 6 }

/-- CH tile point-data pass: per-sheet `н`-prefixed numbering for
NEW/CREATED points, plain numbering for everything else (including
REMOVED); an absent `kind` key reads as Python `None`, stringified. -/
def chPointData (cfg : SVGConfigM) (tokens : List String) (points : List BPointM)
    (g : ChGeom) (tileX0 tileY0 : ℚ) : List ChPointD × List String :=
  let step := fun (acc : List ChPointD × List String × ℕ × ℕ) (bp : BPointM) =>
    let a := chToPx g bp.x bp.y
    let kind := match bp.kind with
      | some k => k
      | none => "None"
    if isNewKind kind then
      let ci := acc.2.2.1 + 1
      let rec0 : ChPointD :=
        { xAbs := a.1, yAbs := a.2, xRel := a.1 - tileX0, yRel := a.2 - tileY0
          label := "н" ++ toString ci, color := cfg.red
          radiusMm := cfg.createdPointRadius
          radiusPx := mmToPx cfg.createdPointRadius cfg.dpi }
      (acc.1 ++ [rec0],
        tokenAdd (tokenAdd acc.2.1 "point-new") "label-point-new", ci, acc.2.2.2)
    else
      let ei := acc.2.2.2 + 1
      let rec0 : ChPointD :=
        { xAbs := a.1, yAbs := a.2, xRel := a.1 - tileX0, yRel := a.2 - tileY0
          label := toString ei, color := cfg.black
          radiusMm := cfg.existingPointRadius
          radiusPx := mmToPx cfg.existingPointRadius cfg.dpi }
      (acc.1 ++ [rec0],
        tokenAdd (tokenAdd acc.2.1 "point-existing") "label-point-existing", acc.2.2.1, ei)
  let r := points.foldl step ([], tokens, 0, 0)
  (r.1, r.2.1)

/-- CH tile label-position pass: fan/outward direction, start offset
`radius + 8` from the tile-relative position, spiral search against the
accumulated buffers and placed labels, accepted bbox appended. -/
def chLabelPositions (orc : MathOracle) (cfg : SVGConfigM)
    (pointData : List ChPointD) (ptsPxShift : List (ℚ × ℚ)) (buffers : List RectM)
    (assoc : List (ℕ × (ℚ × ℚ))) (centerX centerY : ℚ) : List (ℚ × ℚ) :=
  let fontSizePx : ℚ := cfg.fontSize
  ((pointData.enum).foldl
    (fun (acc : List (ℚ × ℚ) × List RectM) ipd =>
      let i := ipd.1
      let pd := ipd.2
      let dir := labelDirection orc assoc i pd.xAbs pd.yAbs centerX centerY
      let baseOffset := pd.radiusPx + 8
      let startX := pd.xRel + dir.1 * baseOffset
      let startY := pd.yRel + dir.2 * baseOffset
      let pos := spiralSearchForLabel orc startX startY pd.label fontSizePx
        ptsPxShift buffers acc.2
      (acc.1 ++ [pos], acc.2 ++ [chLabelBbox pos.1 pos.2 pd.label fontSizePx]))
    ([], [])).1

/-- One CH tile, from the body of the pagination loop.  The incoming
legend-token set is discarded by the reset
(`self.used_legend_tokens = set()`) before any element of the tile is
rendered. -/
def chTileRender (orc : MathOracle) (cfg : SVGConfigM) (incomingTokens : List String)
    (parcels : List ParcelM) (points : List BPointM) (g : ChGeom) (r c : ℕ) :
    String × List String :=
  let _ := incomingTokens
  let tokens0 : List String := []
  let tileX0 := (c : ℚ) * g.waW
  let tileY0 := (r : ℚ) * g.waH
  let labelPad := mmToPx 3 cfg.dpi
  let clipId := "clip_ch_" ++ toString r ++ "_" ++ toString c
  let clipPart := "<defs><clipPath id=\"" ++ clipId ++ "\"><rect x=\"" ++
    pyFmt2 (tileX0 - labelPad) ++ "\" y=\"" ++ pyFmt2 (tileY0 - labelPad) ++
    "\" width=\"" ++ pyFmt2 (g.waW + 2 * labelPad) ++ "\" height=\"" ++
    pyFmt2 (g.waH + 2 * labelPad) ++ "\"/></clipPath></defs>"
  let ptsPx := points.map (fun p => chToPx g p.x p.y)
  let ptsPxShift := ptsPx.map (fun q => (q.1 - tileX0, q.2 - tileY0))
  let segAcc := ((ringSegs ptsPxShift).zip (ringSegs (points.map kindD))).foldl
    (fun (acc : List String × List String) sk =>
      let stroke := if isNewKind sk.2.1 || isNewKind sk.2.2 then cfg.red else cfg.black
      let token := if stroke = cfg.red then "boundary-new" else "boundary-existing"
      let seg := "<g clip-path=\"url(#" ++ clipId ++ ")\"><line x1=\"" ++
        pyFmt2 sk.1.1.1 ++ "\" y1=\"" ++ pyFmt2 sk.1.1.2 ++ "\" x2=\"" ++
        pyFmt2 sk.1.2.1 ++ "\" y2=\"" ++ pyFmt2 sk.1.2.2 ++ "\" stroke=\"" ++ stroke ++
        "\" stroke-width=\"0.2mm\"/></g>"
      (acc.1 ++ [seg], tokenAdd acc.2 token))
    ([], tokens0)
  let centerX := if ptsPx.length = 0 then 0 else (ptsPx.map Prod.fst).sum / ptsPx.length
  let centerY := if ptsPx.length = 0 then 0 else (ptsPx.map Prod.snd).sum / ptsPx.length
  let pd := chPointData cfg segAcc.2 points g tileX0 tileY0
  let pointBboxes := pd.1.map (fun q => chPointBbox q.xRel q.yRel q.radiusPx)
  let allBuffers := pointBboxes ++ chBoundaryBufferZones ptsPx
  let clusters := detectPointClusters (pd.1.map (fun q => (q.xRel, q.yRel))) 30
  let assoc := fanDirections orc (pd.1.map (fun q => (q.xAbs, q.yAbs))) clusters
    centerX centerY
  let positions := chLabelPositions orc cfg pd.1 ptsPxShift allBuffers assoc
    centerX centerY
  let pointParts := (pd.1.zip positions).flatMap (fun pp =>
    ["<g clip-path=\"url(#" ++ clipId ++ ")\">" ++
        createCircle cfg pp.1.xRel pp.1.yRel (some (ratStr pp.1.radiusMm ++ "mm"))
          pp.1.color "none" ++ "</g>",
      createText cfg pp.2.1 pp.2.2 pp.1.label pp.1.color (some cfg.fontSize) "start"])
  let parcelPart : List String × List String := match parcels with
    | [] => ([], pd.2)
    | parcel :: _ =>
      ([createText cfg (centerX - tileX0) (centerY - tileY0) (buildParcelLabel parcel)
          cfg.black (some 16) "middle"],
        tokenAdd pd.2 "label-parcel")
  let pageNum := r * g.cols + c + 1
  let hintParts : List String := if 1 < g.cols * g.rows then
      ((if 1 ≤ pageNum - 1 ∧ pageNum - 1 ≤ g.cols * g.rows then
          [createText cfg (g.waW - 8) (g.waH - 8) ("см. лист " ++ toString (pageNum - 1))
            cfg.black (some (cfg.fontSize - 1)) "end"]
        else []) ++
       (if 1 ≤ pageNum + 1 ∧ pageNum + 1 ≤ g.cols * g.rows then
          [createText cfg (g.waW - 8) (g.waH - 8) ("см. лист " ++ toString (pageNum + 1))
            cfg.black (some (cfg.fontSize - 1)) "end"]
        else []))
    else []
  let header := "<svg width=\"" ++ pyFmt2 g.waW ++ "\" height=\"" ++ pyFmt2 g.waH ++
    "\" viewBox=\"0 0 " ++ pyFmt2 g.waW ++ " " ++ pyFmt2 g.waH ++
    "\" xmlns=\"http://www.w3.org/2000/svg\">"
  (String.intercalate "\n" ([header, clipPart] ++ segAcc.1 ++ pointParts ++
      parcelPart.1 ++ hintParts ++ ["</svg>"]),
    parcelPart.2)

/-- Full-sheet dispatch, from `generate_complete_svg`: svg shell around
the SCHEME / SGP / DRAWING composer output (unknown section types produce
the bare shell); empty graphics strings are dropped by
`filter(None, ...)`. -/
def generateCompleteSvg (orc : MathOracle) (s : GenState) (data : CppData)
    (sectionType : String) : Option (String × GenState) :=
  let header := "<svg width=\"" ++ intStr s.cfg.width ++ "\" height=\"" ++
    intStr s.cfg.height ++ "\" viewBox=\"0 0 " ++ intStr s.cfg.width ++ " " ++
    intStr s.cfg.height ++ "\" xmlns=\"http://www.w3.org/2000/svg\">"
  let mid : Option (String × GenState) :=
    if sectionType = "SCHEME" then
      some (generateSchemeGraphics s data.parcels data.boundaryPoints)
    else if sectionType = "SGP" then
      generateSgpGraphics orc s data.parcels data.stations data.directions
        data.boundaryPoints
    else if sectionType = "DRAWING" then
      some (generateParcelGraphics s data.parcels data.boundaryPoints false)
    else some ("", s)
  match mid with
  | none => none
  | some gs2 =>
    some (String.intercalate "\n"
      (([header] ++ [gs2.1] ++ ["</svg>"]).filter (fun x => x ≠ "")), gs2.2)

/-- Pagination entry point, from `generate_drawings_paginated`: the empty
point list falls back to a single DRAWING sheet; otherwise the row-major
tile loop threads the token state, resetting it at each tile. -/
def generateDrawingsPaginated (orc : MathOracle) (s : GenState) (data : CppData) :
    Option (List String × GenState) :=
  match data.boundaryPoints with
  | [] =>
    (generateCompleteSvg orc s data "DRAWING").map (fun r => ([r.1], r.2))
  | p :: ps =>
    match chGeom s.cfg data.scalesAllowed p ps with
    | none => none
    | some g =>
      let res := (List.range g.rows).foldl
        (fun (acc : List String × List String) r =>
          (List.range g.cols).foldl
            (fun (acc2 : List String × List String) c =>
              let t := chTileRender orc s.cfg acc2.2 data.parcels (p :: ps) g r c
              (acc2.1 ++ [t.1], t.2))
            acc)
        ([], s.usedLegendTokens)
      some (res.1, { s with usedLegendTokens := res.2 })

/-- Convenience entry point, from `generate_svg_for_section`: a freshly
constructed generator (`SVGGraphicsGenerator(config)`, `None` giving the
default configuration) renders one section. -/
def generateSvgForSection (orc : MathOracle) (data : CppData) (sectionType : String)
    (config : Option SVGConfigM) : Option String :=
  (generateCompleteSvg orc (freshGenState (config.getD {})) data sectionType).map
    Prod.fst

/-- Trivial oracle instance used by concrete witnesses (the settled
properties hold for every oracle). -/
def zeroOracle : MathOracle :=
  { sqrtQ := fun _ => 0, cosQ := fun _ => 0, sinQ := fun _ => 0
    atan2Q := fun _ _ => 0, ringVec := fun _ _ => (0, 0)
    twoPiRadiusCount := fun _ => 0, fanUnit := fun _ _ _ _ => (0, 0) }

/-- Concrete boundary point for witnesses. -/
def pW : BPointM := { x := 0, y := 0, kind := some "CREATED" }

/-- Concrete data record for witnesses. -/
def dataW : CppData :=
  { parcels := [], boundaryPoints := [pW], stations := [], directions := []
    scalesAllowed := [500] }

/-- Concrete pagination geometry of `dataW` under the default
configuration (single point, scale 1:500). -/
def gW : ChGeom :=
  { pxPerMeter := 960/127, minX := 0, minY := 0, contentHpx := 3/396875
    offsetX := 272999997/793750, offsetY := 316499997/793750
    waW := 87360/127, waH := 101280/127, cols := 1, rows := 1 }

/-- Concrete first boundary point for the SGP direction witness. -/
def p0S : BPointM := { x := 0, y := 0 }

/-- Concrete remaining boundary points (tall thin triangle, so the SGP
layout succeeds without the buffer-zone rescale) for the SGP direction
witness. -/
def psS : List BPointM := [{ x := 1, y := 0 }, { x := 0, y := 100 }]

/-- Concrete station for the SGP direction witness. -/
def stS : StationM := { idStr := "st1", x := 3, y := 4 }

/-- The SGP layout of `p0S :: psS` under the default configuration
(workarea 687 × 797 px): ring coordinates and pixel centre. -/
def layS : List (ℚ × ℚ) × ℚ × ℚ :=
  ([(682261/2000, 3231/20), (691739/2000, 3231/20), (682261/2000, 12709/20)],
    687/2, 797/2)

/-! ## Theorems -/

/-- Helper: `pick_for` never yields `None`. -/
theorem pickForFormat_isSome (allowed : List ℤ) (needN : ℚ) :
    (pickForFormat allowed needN).isSome := by
  unfold pickForFormat
  cases h : allowed.find? (fun (n : ℤ) => decide (needN ≤ (n : ℚ))) with
  | some n => rfl
  | none =>
    cases hl : allowed with
    | nil => rfl
    | cons a t =>
      simp only [Option.isSome]
      cases hg : (a :: t).getLast? with
      | some n => rfl
      | none => simp [List.getLast?] at hg

/-- Helper: the selected format is always A4. -/
theorem chooseFormatAndScale_fst (bbox : ℚ × ℚ × ℚ × ℚ) (scalesIn : List ℤ) :
    (chooseFormatAndScale bbox scalesIn).1 = pageA4 := by
  unfold chooseFormatAndScale
  dsimp only
  obtain ⟨n, hn⟩ := Option.isSome_iff_exists.mp (pickForFormat_isSome
    ((if scalesIn = [] then [500, 1000, 2000, 5000] else scalesIn).mergeSort
      (fun a b => decide (a ≤ b)))
    (scaleDenominatorForBbox (max (1/10^9) (bbox.2.2.1 - bbox.1))
      (max (1/10^9) (bbox.2.2.2 - bbox.2.1)) (workareaWidthMm pageA4) (workareaHeightMm pageA4)))
  rw [hn]

/-- C2: the claim says that when the content is too large for A4 at any
allowed scale, format A3 is selected.  The code (in agreement with its own
docstring only up to the A4 part) never selects A3: `pick_for` always
returns an integer, so the A4 branch always wins.  At the 1000 m × 1000 m
bbox with allowed scales `[500]`, the required denominator for A4 exceeds
500 (content too large for A4 at every allowed scale), yet A4 is returned
with the largest-allowed fallback 500. -/
theorem C2_choose_format_scale_a3_dead :
    chooseFormatAndScale (0, 0, 1000, 1000) [500] = (pageA4, 500) ∧
    500 < scaleDenominatorForBbox 1000 1000
      (workareaWidthMm pageA4) (workareaHeightMm pageA4) := by
  constructor
  · unfold chooseFormatAndScale pickForFormat
    norm_num [List.find?, scaleDenominatorForBbox, workareaWidthMm, workareaHeightMm,
      pageA4, List.getLast?]
  · norm_num [scaleDenominatorForBbox, workareaWidthMm, workareaHeightMm, pageA4]

/-- Helper: digit characters pass the digit test. -/
theorem isDig_digitChar (d : ℕ) : isDig (digitChar d) = true := by
  unfold digitChar
  split <;> rfl

/-- Helper: decimal notation is never empty. -/
theorem natDigits_ne_nil (n : ℕ) : natDigits n ≠ [] := by
  unfold natDigits
  split
  · simp
  · simp

/-- Helper: decimal notation consists of digits. -/
theorem natDigits_all_dig (n : ℕ) : ∀ c ∈ natDigits n, isDig c = true := by
  induction n using natDigits.induct with
  | case1 n h =>
    rw [natDigits, dif_pos h]
    intro c hc
    rw [List.mem_singleton] at hc
    rw [hc]; exact isDig_digitChar n
  | case2 n h ih =>
    rw [natDigits, dif_neg h]
    intro c hc
    rcases List.mem_append.mp hc with h1 | h2
    · exact ih c h1
    · rw [List.mem_singleton] at h2
      rw [h2]; exact isDig_digitChar (n % 10)

/-- Helper: a maximal digit run stops exactly at the first non-digit. -/
theorem takeWhile_digits_append (l r : List Char) (c : Char)
    (hl : ∀ x ∈ l, isDig x = true) (hc : isDig c = false) :
    (l ++ c :: r).takeWhile isDig = l ∧ (l ++ c :: r).dropWhile isDig = c :: r := by
  induction l with
  | nil => simp [List.takeWhile_cons, List.dropWhile_cons, hc]
  | cons a t ih =>
    have ha : isDig a = true := hl a (List.mem_cons_self a t)
    have ht : ∀ x ∈ t, isDig x = true := fun x hx => hl x (List.mem_cons_of_mem a hx)
    obtain ⟨h1, h2⟩ := ih ht
    simp [List.takeWhile_cons, List.dropWhile_cons, ha, h1, h2]

/-- Helper: a nonempty all-digit run passes `matchDigits1`. -/
theorem matchDigits1_of_digits (l : List Char) (hne : l ≠ [])
    (hds : ∀ x ∈ l, isDig x = true) : matchDigits1 l = true := by
  unfold matchDigits1
  cases l with
  | nil => exact absurd rfl hne
  | cons a t =>
    simp only [List.isEmpty_cons, Bool.not_false, Bool.true_and, List.all_eq_true]
    exact hds

set_option maxRecDepth 8000 in
/-- C4: every label-formatter output is accepted by its validator grammar:
clarify, split, merge, part_existing, part_new_changed, part_new_split and
part_new_merge round-trip through `validate_label` whenever the quarter
number is a nonempty digit string and the counters are positive integers. -/
theorem C4_label_formatters_validate (q : List Char) (n m z p : ℕ)
    (hq : q ≠ [] ∧ ∀ c ∈ q, isDig c = true)
    (_hn : 1 ≤ n) (_hm : 1 ≤ m) (_hz : 1 ≤ z) (_hp : 1 ≤ p) :
    validateLabel (baseLabelForClarify q) "clarify" = true ∧
    validateLabel (newLabelForSplit q n) "split" = true ∧
    validateLabel (newLabelForMerge m) "merge" = true ∧
    validateLabel (partExisting q p) "part_existing" = true ∧
    validateLabel (partNewOnChanged q n) "part_new_changed" = true ∧
    validateLabel (partNewOnSplit q z p) "part_new_split" = true ∧
    validateLabel (partNewOnMerge z p) "part_new_merge" = true := by
  obtain ⟨hqne, hqd⟩ := hq
  have hcol : isDig ':' = false := rfl
  have hsl : isDig '/' = false := rfl
  have hq1 := matchDigits1_of_digits q hqne hqd
  have hnd := fun (k : ℕ) =>
    matchDigits1_of_digits (natDigits k) (natDigits_ne_nil k) (natDigits_all_dig k)
  refine ⟨?_, ?_, ?_, ?_, ?_, ?_, ?_⟩
  · -- clarify: ":q"
    simpa [validateLabel, baseLabelForClarify, matchClarify] using hq1
  · -- split: ":q:ЗУn"
    obtain ⟨ht, hd⟩ := takeWhile_digits_append q ('З' :: 'У' :: natDigits n) ':' hqd hcol
    simp [validateLabel, newLabelForSplit, matchSplit, ht, hd, hqne, hnd n,
      List.isEmpty_eq_true]
  · -- merge: ":ЗУm"
    simpa [validateLabel, newLabelForMerge, matchMerge] using hnd m
  · -- part_existing: ":q/p"
    obtain ⟨ht, hd⟩ := takeWhile_digits_append q (natDigits p) '/' hqd hsl
    simp [validateLabel, partExisting, matchPartExisting, ht, hd, hqne, hnd p,
      List.isEmpty_eq_true]
  · -- part_new_changed: ":q/чзуn"
    obtain ⟨ht, hd⟩ := takeWhile_digits_append q ('ч' :: 'з' :: 'у' :: natDigits n) '/' hqd hsl
    simp [validateLabel, partNewOnChanged, matchPartNewChanged, ht, hd, hqne, hnd n,
      List.isEmpty_eq_true]
  · -- part_new_split: ":q:ЗУz/чзуp"
    obtain ⟨ht, hd⟩ := takeWhile_digits_append q
      ('З' :: 'У' :: (natDigits z ++ '/' :: 'ч' :: 'з' :: 'у' :: natDigits p)) ':' hqd hcol
    obtain ⟨ht2, hd2⟩ := takeWhile_digits_append (natDigits z)
      ('ч' :: 'з' :: 'у' :: natDigits p) '/' (natDigits_all_dig z) hsl
    simp [validateLabel, partNewOnSplit, matchPartNewSplit, ht, hd, ht2, hd2, hqne,
      natDigits_ne_nil z, hnd p, List.isEmpty_eq_true]
  · -- part_new_merge: ":ЗУz/чзуp"
    obtain ⟨ht2, hd2⟩ := takeWhile_digits_append (natDigits z)
      ('ч' :: 'з' :: 'у' :: natDigits p) '/' (natDigits_all_dig z) hsl
    simp [validateLabel, partNewOnMerge, matchPartNewMerge, ht2, hd2,
      natDigits_ne_nil z, hnd p, List.isEmpty_eq_true]

/-- C4 witness: the round-trip instantiated at quarter `"123"` and counters 1,
matching the worked examples in the repository test suite. -/
theorem C4_label_formatters_validate_witness :
    ((['1', '2', '3'] : List Char) ≠ [] ∧ ∀ c ∈ (['1', '2', '3'] : List Char), isDig c = true) ∧
    validateLabel (baseLabelForClarify ['1', '2', '3']) "clarify" = true ∧
    validateLabel (newLabelForSplit ['1', '2', '3'] 1) "split" = true ∧
    validateLabel (newLabelForMerge 1) "merge" = true ∧
    validateLabel (partExisting ['1', '2', '3'] 1) "part_existing" = true ∧
    validateLabel (partNewOnChanged ['1', '2', '3'] 1) "part_new_changed" = true ∧
    validateLabel (partNewOnSplit ['1', '2', '3'] 1 1) "part_new_split" = true ∧
    validateLabel (partNewOnMerge 1 1) "part_new_merge" = true :=
  ⟨⟨by decide, by decide⟩,
    C4_label_formatters_validate ['1', '2', '3'] 1 1 1 1
      ⟨by decide, by decide⟩ (by decide) (by decide) (by decide) (by decide)⟩

/-- C1 counterexample: in the paginated CH drawing a segment between a
REMOVED and an EXISTING endpoint is rendered solid black with token
`boundary-existing`, while `classify` yields UNCERTAIN (rendered black
dashed by `_draw_boundary_segment`), so the claim fails for the paginated
composer. -/
theorem C1_ch_removed_segment_not_uncertain :
    classifySpec "REMOVED" "EXISTING" = BoundaryStatusM.UNCERTAIN ∧
    chSegStatus "REMOVED" "EXISTING" = BoundaryStatusM.EXISTING ∧
    chSegStrokeDash {} "REMOVED" "EXISTING" = ("#000000", none) ∧
    chSegToken {} "REMOVED" "EXISTING" = "boundary-existing" := by
  refine ⟨by decide, by decide, ?_, ?_⟩ <;> decide

/-- C1 amended: the endpoint-status classification of the DRAWING and SGP
composers agrees with `classify` (both EXISTING gives EXISTING, either
CREATED/NEW gives NEW, else UNCERTAIN), is symmetric and total; the
paginated CH composer instead classifies binarily — symmetric, total,
never UNCERTAIN, NEW exactly when an endpoint is CREATED/NEW and EXISTING
otherwise. -/
theorem C1_segment_classification (k1 k2 : String) :
    segStatus k1 k2 = classifySpec k1 k2 ∧
    segStatus k1 k2 = segStatus k2 k1 ∧
    chSegStatus k1 k2 = chSegStatus k2 k1 ∧
    chSegStatus k1 k2 ≠ BoundaryStatusM.UNCERTAIN ∧
    (chSegStatus k1 k2 = BoundaryStatusM.NEW ↔ (isNewKind k1 || isNewKind k2) = true) := by
  by_cases hn1 : isNewKind k1 = true <;> by_cases hn2 : isNewKind k2 = true <;>
    by_cases he1 : k1 = "EXISTING" <;> by_cases he2 : k2 = "EXISTING" <;>
    simp_all [segStatus, classifySpec, chSegStatus, isNewKind] <;>
    first
    | rfl
    | tauto
    | (split <;> tauto)

/-- C7 counterexample, two independent gaps in the claimed universal
floor.  First, the floor does not track the configured DPI: with
`dpi = 300` (all other fields default, so `min_font_pt = 7` and
requested size 11) the rendered size is 11 px, strictly below the 7 pt
floor converted at the configured DPI (29.17 px) — the code converts
with a hard-coded 96.  Second, the floor is not applied to every text
element: the SGP REMOVED point label is an inline f-string emitting the
raw `config.font_size`, so with `font_size = 5` (floor
`round(7·96/72) = 9`) the rendered element carries `font-size="5"`,
below the floor at every DPI. -/
theorem C7_font_floor_not_universal :
    ({ dpi := 300 } : SVGConfigM).minFontPt = 7 ∧
    ({ dpi := 300 } : SVGConfigM).dpi = 300 ∧
    createTextFontSize ({ dpi := 300 } : SVGConfigM) none = 11 ∧
    (11 : ℚ) < ptToPxAtDpi 7 300 ∧
    minFontPx ({ fontSize := 5 } : SVGConfigM) = 9 ∧
    ({ fontSize := 5 } : SVGConfigM).fontSize = 5 ∧
    sgpPointParts ({ fontSize := 5 } : SVGConfigM)
        [{ x := 10, y := 20, label := "5", color := "#000000",
           status := PointStatusM.REMOVED, radiusPx := 3 }] [(30, 40)] =
      ["<circle cx=\"10\" cy=\"20\" r=\"3/4mm\" fill=\"#000000\" stroke=\"none\"/>",
       "<text x=\"30\" y=\"40\" fill=\"#000000\" font-size=\"5\" font-family=\"Times New Roman, serif\" text-anchor=\"start\" font-style=\"italic\" text-decoration=\"underline\">5</text>"] := by
  refine ⟨rfl, rfl, ?_, by norm_num [ptToPxAtDpi], ?_, rfl, ?_⟩
  · norm_num [createTextFontSize, minFontPx, pyRound]
  · norm_num [minFontPx, pyRound]
  · with_unfolding_all rfl

/-- C7 amended: every text element emitted through `_create_text` carries
`font-size` exactly `createTextFontSize`, which is clamped up to
`int(round(min_font_pt * 96/72))` — the floor in points converted at a
hard-coded 96 DPI, independent of the configured DPI.  (The SGP REMOVED
point label bypasses `_create_text` and receives no clamp, per the
counterexample.) -/
theorem C7_font_floor_clamped_at_96dpi (cfg : SVGConfigM) (fs : Option ℤ) :
    minFontPx cfg ≤ createTextFontSize cfg fs ∧
    minFontPx cfg = pyRound (ptToPxAtDpi cfg.minFontPt 96) ∧
    (∀ (x y : ℚ) (text fill anchor : String),
      ∃ pre post : String,
        createText cfg x y text fill fs anchor =
          pre ++ "\" font-size=\"" ++ intStr (createTextFontSize cfg fs) ++
            "\" font-family=\"" ++ post) := by
  refine ⟨?_, ?_, ?_⟩
  · unfold createTextFontSize
    dsimp only
    split
    · exact le_refl _
    · omega
  · unfold minFontPx ptToPxAtDpi
    congr 1
    ring
  · intro x y text fill anchor
    refine ⟨"<text x=\"" ++ ratStr x ++ "\" y=\"" ++ ratStr y ++ "\" fill=\"" ++ fill,
      cfg.fontFamily ++ "\" text-anchor=\"" ++ anchor ++ "\">" ++ text ++ "</text>", ?_⟩
    unfold createText
    simp [String.append_assoc]

/-- Helper: `find?` over an append searches left to right. -/
theorem find?_append_match {α : Type} (l1 l2 : List α) (p : α → Bool) :
    (l1 ++ l2).find? p = match l1.find? p with
      | some x => some x
      | none => l2.find? p := by
  induction l1 with
  | nil => simp
  | cons a t ih =>
    by_cases h : p a
    · simp [List.find?, h]
    · simp only [List.cons_append, List.find?, h]
      exact ih

/-- Helper: the ring-by-ring scan equals first-fit over the flattened
candidate list. -/
theorem spiralScanRings_eq_find (orc : MathOracle) (sx sy : ℚ) (ok : ℚ × ℚ → Bool)
    (rs : List ℕ) :
    spiralScanRings orc sx sy ok rs =
      (rs.flatMap (spiralRingCandidates orc sx sy)).find? ok := by
  induction rs with
  | nil => rfl
  | cons r rest ih =>
    rw [List.flatMap_cons, find?_append_match]
    unfold spiralScanRings
    rw [ih]
    cases List.find? ok (spiralRingCandidates orc sx sy r) <;> rfl

/-- C8: the spiral search returns the first candidate — scanning rings of
radii 0, 2, 4, …, 148 (strictly below 150 px), each ring in index order —
whose padded label rectangle conflicts with no previously placed label
bbox and no object buffer, is not centred inside the polygon, and keeps
at least the 6 px minimum clearance from the polygon edge; when no such
candidate exists it still returns a position, the fixed maximal offset
`(start_x + 150, start_y)`, so a label is always produced. -/
theorem C8_spiral_search_first_fit_or_fallback (orc : MathOracle) (sx sy : ℚ)
    (labelText : String) (fontSize : ℚ) (poly : List (ℚ × ℚ))
    (buffers : List RectM) (existingLabels : List RectM) :
    spiralSearchForLabel orc sx sy labelText fontSize poly buffers existingLabels =
      match (spiralCandidates orc sx sy).find? (fun c =>
          !spiralHasIntersections (spiralLabelRect labelText fontSize c)
            existingLabels buffers poly) with
      | some c => c
      | none => (sx + 150, sy) := by
  unfold spiralSearchForLabel spiralCandidates
  dsimp only
  rw [spiralScanRings_eq_find]

/-- Helper: closed form of one row of the tile loop (the inner fold
appends one SVG per column and replaces the token state). -/
theorem chRow_closed {β : Type} (F1 : ℕ → String) (G1 : ℕ → β) (cols : ℕ)
    (acc0 : List String × β) :
    (List.range cols).foldl (fun a c => (a.1 ++ [F1 c], G1 c)) acc0 =
      (acc0.1 ++ (List.range cols).map F1,
        if cols = 0 then acc0.2 else G1 (cols - 1)) := by
  induction cols generalizing acc0 with
  | zero => simp
  | succ m ih =>
    rw [List.range_succ, List.foldl_append, ih acc0]
    cases m with
    | zero => simp
    | succ k => simp [List.range_succ]

/-- Helper: closed form of the whole tile grid loop: the SVG list is the
row-major flattening, the final token state is that of the last tile. -/
theorem chGrid_closed {β : Type} (F : ℕ → ℕ → String) (G : ℕ → ℕ → β)
    (cols rows : ℕ) (acc0 : List String × β) :
    (List.range rows).foldl
        (fun acc r => (List.range cols).foldl
          (fun a c => (a.1 ++ [F r c], G r c)) acc) acc0 =
      (acc0.1 ++ (List.range rows).flatMap (fun r => (List.range cols).map (F r)),
        if rows = 0 ∨ cols = 0 then acc0.2 else G (rows - 1) (cols - 1)) := by
  induction rows generalizing acc0 with
  | zero => simp
  | succ n ih =>
    rw [List.range_succ, List.foldl_append, ih acc0]
    simp only [List.foldl_cons, List.foldl_nil]
    rw [chRow_closed]
    cases hc : cols with
    | zero => simp [List.flatMap_append, List.range_succ]
    | succ k =>
      cases n with
      | zero => simp [List.flatMap_append, List.range_succ]
      | succ j => simp [List.flatMap_append, List.range_succ]

/-- Helper: the row-major flattening has `rows * cols` entries. -/
theorem flatMap_grid_length {α : Type} (l : List ℕ) (cols : ℕ) (F : ℕ → ℕ → α) :
    (l.flatMap (fun r => (List.range cols).map (F r))).length = l.length * cols := by
  induction l with
  | nil => simp
  | cons a t ih =>
    simp only [List.flatMap_cons, List.length_append, List.length_map,
      List.length_range, ih, List.length_cons]
    ring

/-- Helper: fields of a successfully computed pagination geometry. -/
theorem chGeom_fields (cfg : SVGConfigM) (scales : List ℤ) (p : BPointM)
    (ps : List BPointM) (g : ChGeom)
    (h : chGeom cfg scales p ps = some g) :
    1 ≤ g.cols ∧ 1 ≤ g.rows ∧
    g.waW = (workareaSizePx cfg).1 ∧ g.waH = (workareaSizePx cfg).2 ∧
    g.pxPerMeter = mmToPx 1 cfg.dpi * 1000 /
      (((if scales.isEmpty then [500] else scales).headD 500 : ℤ) : ℚ) ∧
    g.cols = max 1 (Int.ceil ((max (1/10^6)
      (foldMax p.x (ps.map (fun q => q.x)) - foldMin p.x (ps.map (fun q => q.x))) *
        g.pxPerMeter) / g.waW)).toNat ∧
    g.rows = max 1 (Int.ceil ((max (1/10^6)
      (foldMax p.y (ps.map (fun q => q.y)) - foldMin p.y (ps.map (fun q => q.y))) *
        g.pxPerMeter) / g.waH)).toNat := by
  unfold chGeom at h
  dsimp only at h
  set L := if scales.isEmpty then [500] else scales with hL
  split at h
  · exact absurd h (by simp)
  · split at h
    · exact absurd h (by simp)
    · injection h with h2
      subst h2
      exact ⟨le_max_left 1 _, le_max_left 1 _, rfl, rfl, rfl, rfl, rfl⟩

/-- Helper: closed form of the paginated CH run on a nonempty point list
with a successfully computed geometry: the tiles in row-major order and
the final token state of the last tile. -/
theorem paginated_closed_form (orc : MathOracle) (s : GenState) (data : CppData)
    (p : BPointM) (ps : List BPointM) (g : ChGeom)
    (h1 : data.boundaryPoints = p :: ps)
    (h2 : chGeom s.cfg data.scalesAllowed p ps = some g) :
    generateDrawingsPaginated orc s data = some
      ((List.range g.rows).flatMap (fun r => (List.range g.cols).map (fun c =>
        (chTileRender orc s.cfg [] data.parcels (p :: ps) g r c).1)),
       { s with usedLegendTokens :=
          (chTileRender orc s.cfg [] data.parcels (p :: ps) g
            (g.rows - 1) (g.cols - 1)).2 }) := by
  obtain ⟨hc, hr, -⟩ := chGeom_fields _ _ _ _ _ h2
  unfold generateDrawingsPaginated
  rw [h1]
  dsimp only
  rw [h2]
  dsimp only
  have hbody : (fun (acc2 : List String × List String) c =>
      let t := chTileRender orc s.cfg acc2.2 data.parcels (p :: ps) g 0 c
      (acc2.1 ++ [t.1], t.2)) = fun acc2 c =>
      (acc2.1 ++ [(chTileRender orc s.cfg [] data.parcels (p :: ps) g 0 c).1],
        (chTileRender orc s.cfg [] data.parcels (p :: ps) g 0 c).2) := rfl
  rw [show ((List.range g.rows).foldl
      (fun (acc : List String × List String) r => (List.range g.cols).foldl
        (fun (acc2 : List String × List String) c =>
          let t := chTileRender orc s.cfg acc2.2 data.parcels (p :: ps) g r c
          (acc2.1 ++ [t.1], t.2)) acc)
      ([], s.usedLegendTokens)) =
    ((List.range g.rows).foldl
      (fun (acc : List String × List String) r => (List.range g.cols).foldl
        (fun (acc2 : List String × List String) c =>
          (acc2.1 ++ [(chTileRender orc s.cfg [] data.parcels (p :: ps) g r c).1],
            (chTileRender orc s.cfg [] data.parcels (p :: ps) g r c).2)) acc)
      ([], s.usedLegendTokens)) from rfl]
  rw [chGrid_closed
    (fun r c => (chTileRender orc s.cfg [] data.parcels (p :: ps) g r c).1)
    (fun r c => (chTileRender orc s.cfg [] data.parcels (p :: ps) g r c).2)]
  have : ¬(g.rows = 0 ∨ g.cols = 0) := by omega
  simp only [this, if_false, List.nil_append]

/-- Helper: concrete evaluation of the pagination geometry of `dataW`. -/
theorem chGeom_dataW_eval :
    chGeom ({} : SVGConfigM) dataW.scalesAllowed pW [] = some gW := by
  unfold chGeom dataW pW gW workareaSizePx mmToPx foldMin foldMax
  norm_num
  constructor <;> (rw [Int.ceil_le]; norm_num)

/-- C5: on a nonempty boundary-point list (and a pagination geometry the
Python code computes without error), `generate_drawings_paginated` returns
exactly `rows × cols` SVG strings in row-major order — the concatenation
over rows of the per-row tile lists — with
`cols = max(1, ceil(content_width_px / workarea_width_px))` and
`rows = max(1, ceil(content_height_px / workarea_height_px))` at the scale
given by the first entry of `scales_allowed` (an absent or empty list
defaulting to `[500]`). -/
theorem C5_pagination_tiles_row_major (orc : MathOracle) (s : GenState)
    (data : CppData) (p : BPointM) (ps : List BPointM) (g : ChGeom)
    (h1 : data.boundaryPoints = p :: ps)
    (h2 : chGeom s.cfg data.scalesAllowed p ps = some g) :
    ∃ s2, generateDrawingsPaginated orc s data = some
      ((List.range g.rows).flatMap (fun r => (List.range g.cols).map (fun c =>
        (chTileRender orc s.cfg [] data.parcels (p :: ps) g r c).1)), s2) ∧
    ((List.range g.rows).flatMap (fun r => (List.range g.cols).map (fun c =>
        (chTileRender orc s.cfg [] data.parcels (p :: ps) g r c).1))).length =
      g.rows * g.cols ∧
    g.cols = max 1 (Int.ceil ((max (1/10^6)
      (foldMax p.x (ps.map (fun q => q.x)) - foldMin p.x (ps.map (fun q => q.x))) *
        (mmToPx 1 s.cfg.dpi * 1000 /
          (((if data.scalesAllowed.isEmpty then [500] else data.scalesAllowed).headD
            500 : ℤ) : ℚ))) / (workareaSizePx s.cfg).1)).toNat ∧
    g.rows = max 1 (Int.ceil ((max (1/10^6)
      (foldMax p.y (ps.map (fun q => q.y)) - foldMin p.y (ps.map (fun q => q.y))) *
        (mmToPx 1 s.cfg.dpi * 1000 /
          (((if data.scalesAllowed.isEmpty then [500] else data.scalesAllowed).headD
            500 : ℤ) : ℚ))) / (workareaSizePx s.cfg).2)).toNat := by
  obtain ⟨hc, hr, hwaW, hwaH, hpx, hcols, hrows⟩ := chGeom_fields _ _ _ _ _ h2
  refine ⟨_, paginated_closed_form orc s data p ps g h1 h2, ?_, ?_, ?_⟩
  · rw [flatMap_grid_length, List.length_range, Nat.mul_comm]
  · rw [hcols, hpx, hwaW]
  · rw [hrows, hpx, hwaH]

/-- C5 witness: the single-point drawing at scale 1:500 under the default
configuration paginates into exactly one 1 × 1 row-major tile. -/
theorem C5_pagination_tiles_row_major_witness :
    (dataW.boundaryPoints = pW :: ([] : List BPointM) ∧
      chGeom (freshGenState {}).cfg dataW.scalesAllowed pW [] = some gW) ∧
    (∃ s2, generateDrawingsPaginated zeroOracle (freshGenState {}) dataW = some
      ((List.range gW.rows).flatMap (fun r => (List.range gW.cols).map (fun c =>
        (chTileRender zeroOracle (freshGenState {}).cfg [] dataW.parcels (pW :: [])
          gW r c).1)), s2) ∧
    ((List.range gW.rows).flatMap (fun r => (List.range gW.cols).map (fun c =>
        (chTileRender zeroOracle (freshGenState {}).cfg [] dataW.parcels (pW :: [])
          gW r c).1))).length = gW.rows * gW.cols ∧
    gW.cols = max 1 (Int.ceil ((max (1/10^6)
      (foldMax pW.x (([] : List BPointM).map (fun q => q.x)) -
        foldMin pW.x (([] : List BPointM).map (fun q => q.x))) *
        (mmToPx 1 (freshGenState {}).cfg.dpi * 1000 /
          (((if dataW.scalesAllowed.isEmpty then [500] else dataW.scalesAllowed).headD
            500 : ℤ) : ℚ))) / (workareaSizePx (freshGenState {}).cfg).1)).toNat ∧
    gW.rows = max 1 (Int.ceil ((max (1/10^6)
      (foldMax pW.y (([] : List BPointM).map (fun q => q.y)) -
        foldMin pW.y (([] : List BPointM).map (fun q => q.y))) *
        (mmToPx 1 (freshGenState {}).cfg.dpi * 1000 /
          (((if dataW.scalesAllowed.isEmpty then [500] else dataW.scalesAllowed).headD
            500 : ℤ) : ℚ))) / (workareaSizePx (freshGenState {}).cfg).2)).toNat) :=
  ⟨⟨by decide, chGeom_dataW_eval⟩,
    C5_pagination_tiles_row_major zeroOracle (freshGenState {}) dataW pW [] gW
      (by decide) chGeom_dataW_eval⟩

/-- C6: the legend-token set is reset at the start of every CH tile before
any of that tile's elements are rendered: the tile render is insensitive
to the incoming token set, and a whole paginated run from any two
generator states with equal configuration (arbitrary leftover tokens and
obstacle lists) yields identical SVG strings and identical final token
sets — nothing leaks from earlier tiles or earlier render invocations. -/
theorem C6_legend_tokens_reset_per_tile (orc : MathOracle) (cfg : SVGConfigM)
    (parcels : List ParcelM) (points : List BPointM) (g : ChGeom) (r c : ℕ)
    (incoming : List String) (s1 s2 : GenState) (data : CppData)
    (hcfg1 : s1.cfg = cfg) (hcfg2 : s2.cfg = cfg)
    (hne : data.boundaryPoints ≠ []) :
    chTileRender orc cfg incoming parcels points g r c =
      chTileRender orc cfg [] parcels points g r c ∧
    (generateDrawingsPaginated orc s1 data).map
        (fun res => (res.1, res.2.usedLegendTokens)) =
      (generateDrawingsPaginated orc s2 data).map
        (fun res => (res.1, res.2.usedLegendTokens)) := by
  constructor
  · rfl
  · obtain ⟨p, ps, h1⟩ : ∃ p ps, data.boundaryPoints = p :: ps := by
      cases hl : data.boundaryPoints with
      | nil => exact absurd hl hne
      | cons a t => exact ⟨a, t, rfl⟩
    cases hg : chGeom cfg data.scalesAllowed p ps with
    | none =>
      unfold generateDrawingsPaginated
      rw [h1]
      dsimp only
      rw [hcfg1, hcfg2, hg]
    | some g2 =>
      rw [paginated_closed_form orc s1 data p ps g2 h1 (by rw [hcfg1]; exact hg),
        paginated_closed_form orc s2 data p ps g2 h1 (by rw [hcfg2]; exact hg)]
      simp [hcfg1, hcfg2]

/-- C6 witness: a stale token set and obstacle list in the generator state
do not change the paginated output or the final token set. -/
theorem C6_legend_tokens_reset_per_tile_witness :
    (({ cfg := {}, usedLegendTokens := ["point-new", "ggs"],
        boundarySegmentsPx := [(1, 2, 3, 4)] } : GenState).cfg = ({} : SVGConfigM) ∧
      (freshGenState {}).cfg = ({} : SVGConfigM) ∧
      dataW.boundaryPoints ≠ []) ∧
    (chTileRender zeroOracle {} ["stale"] [] [pW] gW 0 0 =
      chTileRender zeroOracle {} [] [] [pW] gW 0 0 ∧
    (generateDrawingsPaginated zeroOracle
        { cfg := {}, usedLegendTokens := ["point-new", "ggs"],
          boundarySegmentsPx := [(1, 2, 3, 4)] } dataW).map
        (fun res => (res.1, res.2.usedLegendTokens)) =
      (generateDrawingsPaginated zeroOracle (freshGenState {}) dataW).map
        (fun res => (res.1, res.2.usedLegendTokens))) :=
  ⟨⟨rfl, rfl, by decide⟩,
    C6_legend_tokens_reset_per_tile zeroOracle {} [] [pW] gW 0 0 ["stale"]
      { cfg := {}, usedLegendTokens := ["point-new", "ggs"],
        boundarySegmentsPx := [(1, 2, 3, 4)] }
      (freshGenState {}) dataW rfl rfl (by decide)⟩

/-- Helper: a fold whose visible component never reads the ghost component
produces the same visible result from any two ghost seeds. -/
theorem foldl_ghost {γ σ τ : Type} (l : List γ) (F : σ → γ → σ) (G : σ → τ → γ → τ)
    (s0 : σ) (t1 t2 : τ) :
    (l.foldl (fun a x => (F a.1 x, G a.1 a.2 x)) (s0, t1)).1 =
      (l.foldl (fun a x => (F a.1 x, G a.1 a.2 x)) (s0, t2)).1 := by
  induction l generalizing s0 t1 t2 with
  | nil => rfl
  | cons a t ih =>
    simp only [List.foldl_cons]
    exact ih _ _ _

/-- Helper: the main-parcel selection of a nonempty parcel list is
nonempty. -/
theorem mainParcelsOf_ne (parcels : List ParcelM) (h : parcels ≠ []) :
    (mainParcelsOf parcels).isEmpty = false := by
  unfold mainParcelsOf
  dsimp only
  split
  · cases parcels with
    | nil => exact absurd rfl h
    | cons a t => rfl
  · next hf => simpa using hf

set_option maxHeartbeats 2000000 in
/-- Helper: the DRAWING boundary loop's markup and segment list do not
depend on the incoming token set. -/
theorem parcelBoundaryLoop_tokens_indep (cfg : SVGConfigM) (t1 t2 : List String)
    (normalized : List (ℚ × ℚ)) (kinds : List String) :
    (parcelBoundaryLoop cfg t1 normalized kinds).1 =
      (parcelBoundaryLoop cfg t2 normalized kinds).1 := by
  unfold parcelBoundaryLoop
  exact foldl_ghost ((ringSegs normalized).zip (ringSegs kinds))
    (fun (s : List String × List (ℚ × ℚ × ℚ × ℚ)) (sk : ((ℚ × ℚ) × (ℚ × ℚ)) × (String × String)) => (s.1 ++ [(drawBoundarySegment cfg [] sk.1.1.1 sk.1.1.2 sk.1.2.1
        sk.1.2.2 (segStatus sk.2.1 sk.2.2)).1],
      s.2 ++ [(sk.1.1.1, sk.1.1.2, sk.1.2.1, sk.1.2.2)]))
    (fun _ t (sk : ((ℚ × ℚ) × (ℚ × ℚ)) × (String × String)) =>
      (drawBoundarySegment cfg t sk.1.1.1 sk.1.1.2 sk.1.2.1 sk.1.2.2
        (segStatus sk.2.1 sk.2.2)).2)
    ([], []) t1 t2

/-- Helper: the DRAWING point loop's markup does not depend on the
incoming token set. -/
theorem parcelPointLoop_tokens_indep (cfg : SVGConfigM) (t1 t2 : List String)
    (points : List BPointM) (normalized : List (ℚ × ℚ)) (skip : Bool) :
    (parcelPointLoop cfg t1 points normalized skip).1 =
      (parcelPointLoop cfg t2 points normalized skip).1 := by
  unfold parcelPointLoop
  dsimp only
  exact congrArg (fun z => z.1)
    (foldl_ghost (points.zip normalized)
      (fun (s : List String × ℕ × ℕ) (pc : BPointM × (ℚ × ℚ)) =>
        let kind := kindD pc.1
        let stLbl : PointStatusM × ℕ × ℕ :=
          if isNewKind kind then (.NEW, s.2.1 + 1, s.2.2)
          else if kind = "REMOVED" then (.REMOVED, s.2.1, s.2.2 + 1)
          else (.EXISTING, s.2.1, s.2.2 + 1)
        let lbl := if stLbl.1 = .NEW then toString stLbl.2.1 else toString stLbl.2.2
        (s.1 ++ [if skip then
            createCircle cfg pc.2.1 pc.2.2 (some (ratStr (3/4) ++ "mm"))
              (if stLbl.1 = .NEW then cfg.red else cfg.black) "none"
          else (drawPoint cfg [] pc.2.1 pc.2.2 stLbl.1 lbl).1],
          stLbl.2.1, stLbl.2.2))
      (fun (s : List String × ℕ × ℕ) t (pc : BPointM × (ℚ × ℚ)) =>
        let kind := kindD pc.1
        let stLbl : PointStatusM × ℕ × ℕ :=
          if isNewKind kind then (.NEW, s.2.1 + 1, s.2.2)
          else if kind = "REMOVED" then (.REMOVED, s.2.1, s.2.2 + 1)
          else (.EXISTING, s.2.1, s.2.2 + 1)
        let lbl := if stLbl.1 = .NEW then toString stLbl.2.1 else toString stLbl.2.2
        if skip then
          tokenAdd t (if stLbl.1 = .NEW then "point-new"
            else if stLbl.1 = .REMOVED then "point-removed" else "point-existing")
        else (drawPoint cfg t pc.2.1 pc.2.2 stLbl.1 lbl).2)
      ([], 0, 0) t1 t2)

/-- Helper: the SGP point-data pass does not depend on the incoming token
set. -/
theorem sgpPointData_tokens_indep (cfg2 : SVGConfigM) (t1 t2 : List String)
    (points : List BPointM) (pts : List (ℚ × ℚ)) :
    (sgpPointData cfg2 t1 points pts).1 = (sgpPointData cfg2 t2 points pts).1 := by
  unfold sgpPointData
  exact foldl_ghost ((points.zip pts).enum)
    (fun (s : List SGPPointD) (ipr : ℕ × BPointM × (ℚ × ℚ)) =>
      let kind := kindD ipr.2.1
      s ++ [if isNewKind kind then
          { x := ipr.2.2.1, y := ipr.2.2.2, label := "н" ++ toString (ipr.1 + 1),
            color := cfg2.red, status := .NEW, radiusPx := mmToPx (3/4) cfg2.dpi }
        else if kind = "REMOVED" then
          { x := ipr.2.2.1, y := ipr.2.2.2, label := toString (ipr.1 + 1),
            color := cfg2.black, status := .REMOVED, radiusPx := mmToPx (3/4) cfg2.dpi }
        else
          { x := ipr.2.2.1, y := ipr.2.2.2, label := toString (ipr.1 + 1),
            color := cfg2.black, status := .EXISTING,
            radiusPx := mmToPx (3/4) cfg2.dpi }])
    (fun _ t (ipr : ℕ × BPointM × (ℚ × ℚ)) =>
      let kind := kindD ipr.2.1
      if isNewKind kind then tokenAdd (tokenAdd t "point-new") "label-point-new"
      else if kind = "REMOVED" then tokenAdd t "point-removed"
      else tokenAdd (tokenAdd t "point-existing") "label-point-existing")
    [] t1 t2

/-- Helper: the DRAWING composer's markup depends only on the
configuration, not on leftover tokens or stored boundary segments. -/
theorem generateParcelGraphics_fst_indep (s1 s2 : GenState) (h : s1.cfg = s2.cfg)
    (parcels : List ParcelM) (points : List BPointM) (skip : Bool) :
    (generateParcelGraphics s1 parcels points skip).1 =
      (generateParcelGraphics s2 parcels points skip).1 := by
  unfold generateParcelGraphics
  dsimp only
  by_cases hpe : (parcels.isEmpty || points.isEmpty) = true
  · simp only [hpe, if_true]
  · have hpne : parcels ≠ [] := by
      intro he
      subst he
      simp at hpe
    have hm := mainParcelsOf_ne parcels hpne
    have hpe2 : (parcels.isEmpty || points.isEmpty) = false := by
      simpa using hpe
    simp only [hpe2, Bool.false_eq_true, if_false, hm, Bool.not_false, if_true, h]
    have hb := parcelBoundaryLoop_tokens_indep s2.cfg s1.usedLegendTokens
      s2.usedLegendTokens
      ((normalizeCoordinates s2.cfg (points.map (fun p => (p.x, p.y)))).1)
      (points.map kindD)
    rw [congrArg Prod.fst hb, congrArg Prod.snd hb,
      parcelPointLoop_tokens_indep s2.cfg
        (parcelBoundaryLoop s2.cfg s1.usedLegendTokens
          (normalizeCoordinates s2.cfg (points.map (fun p => (p.x, p.y)))).1
          (points.map kindD)).2
        (parcelBoundaryLoop s2.cfg s2.usedLegendTokens
          (normalizeCoordinates s2.cfg (points.map (fun p => (p.x, p.y)))).1
          (points.map kindD)).2
        points (normalizeCoordinates s2.cfg (points.map (fun p => (p.x, p.y)))).1 skip]

/-- Helper: the SCHEME composer's markup depends only on the
configuration. -/
theorem generateSchemeGraphics_fst_indep (s1 s2 : GenState) (h : s1.cfg = s2.cfg)
    (parcels : List ParcelM) (points : List BPointM) :
    (generateSchemeGraphics s1 parcels points).1 =
      (generateSchemeGraphics s2 parcels points).1 := by
  unfold generateSchemeGraphics
  dsimp only
  by_cases hpe : (parcels.isEmpty || points.isEmpty) = true
  · simp only [hpe, if_true]
  · have hpe2 : (parcels.isEmpty || points.isEmpty) = false := by
      simpa using hpe
    simp only [hpe2, Bool.false_eq_true, if_false, h]
    have hseg := foldl_ghost
      ((ringSegs ((normalizeCoordinates s2.cfg (points.map (fun p => (p.x, p.y)))).1)).zip
        (ringSegs (points.map kindD)))
      (fun (acc : List String) (sk : ((ℚ × ℚ) × (ℚ × ℚ)) × (String × String)) =>
        acc ++ [createLine s2.cfg sk.1.1.1 sk.1.1.2 sk.1.2.1 sk.1.2.2
          (if isNewKind sk.2.1 || isNewKind sk.2.2 then (s2.cfg.red, "target")
            else ("#808080", "adjacent")).1 (some "2.5mm") none])
      (fun _ t (sk : ((ℚ × ℚ) × (ℚ × ℚ)) × (String × String)) =>
        tokenAdd t (if isNewKind sk.2.1 || isNewKind sk.2.2 then (s2.cfg.red, "target")
          else ("#808080", "adjacent")).2)
      [] s1.usedLegendTokens s2.usedLegendTokens
    by_cases hc : (!(mainParcelsOf parcels).isEmpty &&
        decide (3 ≤ (normalizeCoordinates s2.cfg (points.map (fun p => (p.x, p.y)))).1.length)) = true
    · simp only [hc, if_true]
      rw [hseg]
      cases mainParcelsOf parcels <;> dsimp only <;>
        first
        | rfl
        | (split <;> rfl)
    · have hc2 : (!(mainParcelsOf parcels).isEmpty &&
          decide (3 ≤ (normalizeCoordinates s2.cfg
            (points.map (fun p => (p.x, p.y)))).1.length)) = false := by
        simpa using hc
      simp only [hc2, Bool.false_eq_true, if_false]
      cases mainParcelsOf parcels <;> dsimp only <;>
        first
        | rfl
        | (split <;> rfl)


/-- Helper: the SGP contour loop's markup does not depend on the incoming
token set. -/
theorem sgpContourLoop_tokens_indep (cfg2 : SVGConfigM) (t1 t2 : List String)
    (normPts : List (ℚ × ℚ)) (kinds : List String) :
    (sgpContourLoop cfg2 t1 normPts kinds).1 =
      (sgpContourLoop cfg2 t2 normPts kinds).1 := by
  unfold sgpContourLoop
  exact foldl_ghost ((ringSegs normPts).zip (ringSegs kinds))
    (fun (s : List String) (sk : ((ℚ × ℚ) × (ℚ × ℚ)) × (String × String)) =>
      s ++ [(drawBoundarySegment cfg2 [] sk.1.1.1 sk.1.1.2 sk.1.2.1 sk.1.2.2
        (segStatus sk.2.1 sk.2.2)).1])
    (fun _ t (sk : ((ℚ × ℚ) × (ℚ × ℚ)) × (String × String)) =>
      (drawBoundarySegment cfg2 t sk.1.1.1 sk.1.1.2 sk.1.2.1 sk.1.2.2
        (segStatus sk.2.1 sk.2.2)).2)
    [] t1 t2

/-- Helper: the SGP station loop's markup does not depend on the incoming
token set. -/
theorem sgpStationLoop_tokens_indep (orc : MathOracle) (cfg2 : SVGConfigM)
    (t1 t2 : List String) (cxPx cyPx cxM cyM ringR : ℚ) (p0 : Option BPointM)
    (p0c : Option (ℚ × ℚ)) (stations : List StationM) :
    (sgpStationLoop orc cfg2 t1 cxPx cyPx cxM cyM ringR p0 p0c stations).1 =
      (sgpStationLoop orc cfg2 t2 cxPx cyPx cxM cyM ringR p0 p0c stations).1 := by
  unfold sgpStationLoop
  exact foldl_ghost stations
    (fun (s : List String) st =>
      s ++ (sgpStationParts orc cfg2 [] cxPx cyPx cxM cyM ringR p0 p0c st).1)
    (fun _ t st =>
      (sgpStationParts orc cfg2 t cxPx cyPx cxM cyM ringR p0 p0c st).2)
    [] t1 t2

/-- Helper: the SGP composer's markup (and whether it raises) depends only
on the configuration. -/
theorem generateSgpGraphics_fst_indep (orc : MathOracle) (s1 s2 : GenState)
    (h : s1.cfg = s2.cfg) (parcels : List ParcelM) (stations : List StationM)
    (dirs : List DirectionM) (points : List BPointM) :
    (generateSgpGraphics orc s1 parcels stations dirs points).map Prod.fst =
      (generateSgpGraphics orc s2 parcels stations dirs points).map Prod.fst := by
  unfold generateSgpGraphics
  dsimp only
  by_cases hpe : points.isEmpty = true
  · simp [hpe]
  · have hpe2 : points.isEmpty = false := by simpa using hpe
    simp only [hpe2, Bool.false_eq_true, if_false, h]
    cases hlay : sgpLayout (sgpWorkCfg s2.cfg) points with
    | none => rfl
    | some lay =>
      dsimp only
      refine congrArg some ?_
      have hcont : (if 2 ≤ lay.1.length then
            sgpContourLoop (sgpWorkCfg s2.cfg) s1.usedLegendTokens lay.1
              (points.map kindD)
          else (([] : List String), s1.usedLegendTokens)).1 =
          (if 2 ≤ lay.1.length then
            sgpContourLoop (sgpWorkCfg s2.cfg) s2.usedLegendTokens lay.1
              (points.map kindD)
          else (([] : List String), s2.usedLegendTokens)).1 := by
        split
        · exact sgpContourLoop_tokens_indep _ _ _ _ _
        · rfl
      rw [hcont, sgpStationLoop_tokens_indep orc (sgpWorkCfg s2.cfg)
          (if 2 ≤ lay.1.length then
            sgpContourLoop (sgpWorkCfg s2.cfg) s1.usedLegendTokens lay.1
              (points.map kindD)
          else (([] : List String), s1.usedLegendTokens)).2
          (if 2 ≤ lay.1.length then
            sgpContourLoop (sgpWorkCfg s2.cfg) s2.usedLegendTokens lay.1
              (points.map kindD)
          else (([] : List String), s2.usedLegendTokens)).2
          lay.2.1 lay.2.2 _ _ _ points.head? lay.1.head? stations,
        sgpPointData_tokens_indep (sgpWorkCfg s2.cfg)
          (sgpStationLoop orc (sgpWorkCfg s2.cfg)
            (if 2 ≤ lay.1.length then
              sgpContourLoop (sgpWorkCfg s2.cfg) s1.usedLegendTokens lay.1
                (points.map kindD)
            else (([] : List String), s1.usedLegendTokens)).2
            lay.2.1 lay.2.2 _ _ _ points.head? lay.1.head? stations).2
          (sgpStationLoop orc (sgpWorkCfg s2.cfg)
            (if 2 ≤ lay.1.length then
              sgpContourLoop (sgpWorkCfg s2.cfg) s2.usedLegendTokens lay.1
                (points.map kindD)
            else (([] : List String), s2.usedLegendTokens)).2
            lay.2.1 lay.2.2 _ _ _ points.head? lay.1.head? stations).2
          points lay.1]


/-- Helper: the full-sheet dispatch markup depends only on the
configuration, not on leftover generator state. -/
theorem generateCompleteSvg_fst_indep (orc : MathOracle) (s1 s2 : GenState)
    (h : s1.cfg = s2.cfg) (data : CppData) (sectionType : String) :
    (generateCompleteSvg orc s1 data sectionType).map Prod.fst =
      (generateCompleteSvg orc s2 data sectionType).map Prod.fst := by
  unfold generateCompleteSvg
  dsimp only
  by_cases hS : sectionType = "SCHEME"
  · rw [if_pos hS, if_pos hS]
    dsimp only
    rw [h, generateSchemeGraphics_fst_indep s1 s2 h data.parcels data.boundaryPoints]
    simp only [Option.map_some']
  · rw [if_neg hS, if_neg hS]
    by_cases hG : sectionType = "SGP"
    · rw [if_pos hG, if_pos hG]
      have hsgp := generateSgpGraphics_fst_indep orc s1 s2 h data.parcels
        data.stations data.directions data.boundaryPoints
      cases e1 : generateSgpGraphics orc s1 data.parcels data.stations
          data.directions data.boundaryPoints with
      | none =>
        cases e2 : generateSgpGraphics orc s2 data.parcels data.stations
            data.directions data.boundaryPoints with
        | none => rfl
        | some b =>
          rw [e1, e2] at hsgp
          simp at hsgp
      | some a =>
        cases e2 : generateSgpGraphics orc s2 data.parcels data.stations
            data.directions data.boundaryPoints with
        | none =>
          rw [e1, e2] at hsgp
          simp at hsgp
        | some b =>
          rw [e1, e2] at hsgp
          have hb : a.1 = b.1 := by
            simpa using hsgp
          dsimp only
          rw [h, hb]
          simp only [Option.map_some']
    · rw [if_neg hG, if_neg hG]
      by_cases hD : sectionType = "DRAWING"
      · rw [if_pos hD, if_pos hD]
        dsimp only
        rw [h, generateParcelGraphics_fst_indep s1 s2 h data.parcels
          data.boundaryPoints false]
        simp only [Option.map_some']
      · rw [if_neg hD, if_neg hD]
        dsimp only
        rw [h]
        simp only [Option.map_some']

/-- Helper: the paginated CH markup depends only on the configuration, not
on leftover generator state. -/
theorem generateDrawingsPaginated_fst_indep (orc : MathOracle) (s1 s2 : GenState)
    (h : s1.cfg = s2.cfg) (data : CppData) :
    (generateDrawingsPaginated orc s1 data).map Prod.fst =
      (generateDrawingsPaginated orc s2 data).map Prod.fst := by
  cases hbp : data.boundaryPoints with
  | nil =>
    unfold generateDrawingsPaginated
    rw [hbp]
    dsimp only
    have hc := generateCompleteSvg_fst_indep orc s1 s2 h data "DRAWING"
    cases e1 : generateCompleteSvg orc s1 data "DRAWING" with
    | none =>
      cases e2 : generateCompleteSvg orc s2 data "DRAWING" with
      | none => rfl
      | some b =>
        rw [e1, e2] at hc
        simp at hc
    | some a =>
      cases e2 : generateCompleteSvg orc s2 data "DRAWING" with
      | none =>
        rw [e1, e2] at hc
        simp at hc
      | some b =>
        rw [e1, e2] at hc
        have hb : a.1 = b.1 := by
          simpa using hc
        simp only [Option.map_some']
        rw [hb]
  | cons p ps =>
    cases hg : chGeom s2.cfg data.scalesAllowed p ps with
    | none =>
      unfold generateDrawingsPaginated
      rw [hbp]
      dsimp only
      rw [h, hg]
    | some g =>
      rw [paginated_closed_form orc s1 data p ps g hbp (by rw [h]; exact hg),
        paginated_closed_form orc s2 data p ps g hbp hg]
      simp [h]

/-- C9: rendering is deterministic with no dependence on carried-over
generator state: for every section type (SCHEME, SGP, DRAWING or other)
and for the CH pagination, two generator states with equal configurations
— regardless of leftover legend tokens or stored boundary segments from
earlier renders — produce identical output strings, and the public entry
point `generate_svg_for_section` is exactly a run from a freshly
constructed generator, so two calls on equal data and equal fresh
configurations are byte-identical. -/
theorem C9_render_deterministic_no_state_leak (orc : MathOracle) (data : CppData)
    (sectionType : String) (cfg : SVGConfigM) (s1 s2 : GenState)
    (h1 : s1.cfg = cfg) (h2 : s2.cfg = cfg) :
    (generateCompleteSvg orc s1 data sectionType).map Prod.fst =
      (generateCompleteSvg orc s2 data sectionType).map Prod.fst ∧
    (generateDrawingsPaginated orc s1 data).map Prod.fst =
      (generateDrawingsPaginated orc s2 data).map Prod.fst ∧
    generateSvgForSection orc data sectionType (some cfg) =
      (generateCompleteSvg orc (freshGenState cfg) data sectionType).map Prod.fst :=
  ⟨generateCompleteSvg_fst_indep orc s1 s2 (h1.trans h2.symm) data sectionType,
    generateDrawingsPaginated_fst_indep orc s1 s2 (h1.trans h2.symm) data,
    rfl⟩

/-- C9 witness: a dirty generator state (leftover tokens and boundary
segments) and a fresh one with the default configuration render the
DRAWING section and the pagination of `dataW` identically. -/
theorem C9_render_deterministic_no_state_leak_witness :
    (({ cfg := {}, usedLegendTokens := ["ggs"],
        boundarySegmentsPx := [(0, 0, 1, 1)] } : GenState).cfg = ({} : SVGConfigM) ∧
      (freshGenState {}).cfg = ({} : SVGConfigM)) ∧
    ((generateCompleteSvg zeroOracle
        { cfg := {}, usedLegendTokens := ["ggs"], boundarySegmentsPx := [(0, 0, 1, 1)] }
        dataW "DRAWING").map Prod.fst =
      (generateCompleteSvg zeroOracle (freshGenState {}) dataW "DRAWING").map Prod.fst ∧
    (generateDrawingsPaginated zeroOracle
        { cfg := {}, usedLegendTokens := ["ggs"], boundarySegmentsPx := [(0, 0, 1, 1)] }
        dataW).map Prod.fst =
      (generateDrawingsPaginated zeroOracle (freshGenState {}) dataW).map Prod.fst ∧
    generateSvgForSection zeroOracle dataW "DRAWING" (some {}) =
      (generateCompleteSvg zeroOracle (freshGenState {}) dataW "DRAWING").map
        Prod.fst) :=
  ⟨⟨rfl, rfl⟩,
    C9_render_deterministic_no_state_leak zeroOracle dataW "DRAWING" {}
      { cfg := {}, usedLegendTokens := ["ggs"], boundarySegmentsPx := [(0, 0, 1, 1)] }
      (freshGenState {}) rfl rfl⟩

/-- C3: degenerate geometric inputs are mostly handled gracefully — the
empty coordinate list short-circuits `_normalize_coordinates` to
`([], (0, 0), 1.0)`, a zero-extent bounding box yields scale `1.0`, and
the DRAWING, SCHEME and SGP composers return empty markup on empty
inputs — but the claim that rendering never raises is false: an SGP
render of a two-point (degenerate, fewer than three vertices) boundary
with zero horizontal extent large enough to trigger the buffer-zone
rescale divides by the zero parcel width, the Python
`ZeroDivisionError` (`none` in this embedding). -/
theorem C3_degenerate_inputs_can_raise :
    normalizeCoordinates ({} : SVGConfigM) [] = ([], (0, 0), 1) ∧
    (normalizeCoordinates ({} : SVGConfigM) [(5, 7)]).2.2 = 1 ∧
    generateParcelGraphics (freshGenState {}) [] [] false = ("", freshGenState {}) ∧
    generateSchemeGraphics (freshGenState {}) [] [] = ("", freshGenState {}) ∧
    generateSgpGraphics zeroOracle (freshGenState {}) [] [] [] [] =
      some ("", freshGenState {}) ∧
    generateSgpGraphics zeroOracle (freshGenState {}) [] [] []
      [{ x := 0, y := 0 }, { x := 0, y := 10000 }] = none :=
  ⟨rfl, by with_unfolding_all rfl, rfl, rfl, rfl, by with_unfolding_all rfl⟩

/-- Helper: taking at most the length of the left part of an appended
list stays inside the left part. -/
theorem take_append_le {α : Type} (l2 : List α) :
    ∀ (l1 : List α) (n : ℕ), n ≤ l1.length → (l1 ++ l2).take n = l1.take n := by
  intro l1
  induction l1 with
  | nil =>
    intro n h
    have h0 : n = 0 := Nat.le_zero.mp h
    subst h0
    simp
  | cons a t ih =>
    intro n h
    cases n with
    | zero => simp
    | succ m =>
      simp only [List.cons_append, List.take_succ_cons]
      rw [ih m (Nat.le_of_succ_le_succ h)]

/-- Helper: the direction-line recognizer on an appended string reads only
the first five characters of a long enough left part. -/
theorem isDirLine_append (a b : String) (w : List Char) (h : a.data.take 5 = w)
    (hlen : 5 ≤ a.data.length) :
    isDirLine (a ++ b) = decide (w = String.data "<line") := by
  unfold isDirLine
  rw [String.data_append, take_append_le b.data a.data 5 hlen, h]

/-- Helper: a text element is not a direction line. -/
theorem isDirLine_createText (cfg : SVGConfigM) (x y : ℚ) (text fill : String)
    (fs : Option ℤ) (anchor : String) :
    isDirLine (createText cfg x y text fill fs anchor) = false := by
  unfold createText
  simp only [String.append_assoc]
  rw [isDirLine_append "<text x=\"" _ (String.data "<text") (by decide) (by decide)]
  decide

/-- Helper: a triangle (GGS symbol) is not a direction line. -/
theorem isDirLine_createTriangle (orc : MathOracle) (cx cy size : ℚ)
    (fill stroke : String) (sw : Option String) :
    isDirLine (createTriangle orc cx cy size fill stroke sw) = false := by
  unfold createTriangle
  dsimp only
  simp only [String.append_assoc]
  rw [isDirLine_append "<polygon points=\"" _ (String.data "<poly") (by decide) (by decide)]
  decide

/-- Helper: a square (OMS symbol) is not a direction line. -/
theorem isDirLine_createSquare (cx cy size : ℚ) (fill stroke : String)
    (sw : Option String) :
    isDirLine (createSquare cx cy size fill stroke sw) = false := by
  unfold createSquare
  dsimp only
  simp only [String.append_assoc]
  rw [isDirLine_append "<rect x=\"" _ (String.data "<rect") (by decide) (by decide)]
  decide

/-- Helper: a circle is not a direction line. -/
theorem isDirLine_createCircle (cfg : SVGConfigM) (cx cy : ℚ) (r : Option String)
    (fill stroke : String) :
    isDirLine (createCircle cfg cx cy r fill stroke) = false := by
  unfold createCircle
  dsimp only
  simp only [String.append_assoc]
  rw [isDirLine_append "<circle cx=\"" _ (String.data "<circ") (by decide) (by decide)]
  decide

/-- Helper: the marked direction line is a direction line. -/
theorem isDirLine_sgpMarkedLine (cfg2 : SVGConfigM) (x1 y1 x2 y2 : ℚ) :
    isDirLine (sgpMarkedLine cfg2 x1 y1 x2 y2) = true := by
  unfold sgpMarkedLine
  simp only [String.append_assoc]
  rw [isDirLine_append "<line x1=\"" _ (String.data "<line") (by decide) (by decide)]
  decide

/-- Helper: among a station's emitted parts the direction-line elements
are exactly the one marked line from the station's ring position to the
given n1 coordinates. -/
theorem sgpStationParts_filter_dir (orc : MathOracle) (cfg2 : SVGConfigM)
    (tokens : List String) (cxPx cyPx cxM cyM ringR : ℚ) (p0 : Option BPointM)
    (p0c : ℚ × ℚ) (st : StationM) :
    ((sgpStationParts orc cfg2 tokens cxPx cyPx cxM cyM ringR p0 (some p0c) st).1.filter
        isDirLine) =
      [sgpMarkedLine cfg2
        (cxPx + ringR * orc.cosQ (orc.atan2Q (st.y - cyM) (st.x - cxM)))
        (cyPx + ringR * orc.sinQ (orc.atan2Q (st.y - cyM) (st.x - cxM)))
        p0c.1 p0c.2] := by
  unfold sgpStationParts
  dsimp only
  rw [List.filter_append, List.filter_append]
  have hsym : List.filter isDirLine
      (if pyUpper (pyOrStr st.kind "OMS") = "GGS" then
        [createTriangle orc (cxPx + ringR * orc.cosQ (orc.atan2Q (st.y - cyM) (st.x - cxM)))
          (cyPx + ringR * orc.sinQ (orc.atan2Q (st.y - cyM) (st.x - cxM))) 5 "#fff"
          cfg2.blue (some "0.5mm")]
      else
        [createSquare (cxPx + ringR * orc.cosQ (orc.atan2Q (st.y - cyM) (st.x - cxM)))
          (cyPx + ringR * orc.sinQ (orc.atan2Q (st.y - cyM) (st.x - cxM))) 4 "#fff"
          cfg2.blue (some "0.5mm"),
          createCircle cfg2 (cxPx + ringR * orc.cosQ (orc.atan2Q (st.y - cyM) (st.x - cxM)))
            (cyPx + ringR * orc.sinQ (orc.atan2Q (st.y - cyM) (st.x - cxM)))
            (some (ratStr (4/5))) cfg2.blue "none"]) = [] := by
    split
    · simp [List.filter, isDirLine_createTriangle]
    · simp [List.filter, isDirLine_createSquare, isDirLine_createCircle]
  rw [hsym]
  have hname : List.filter isDirLine
      (if (if st.name ≠ "" then st.name else st.idStr) ≠ "" then
        [createText cfg2 (cxPx + ringR * orc.cosQ (orc.atan2Q (st.y - cyM) (st.x - cxM)) + 6)
          (cyPx + ringR * orc.sinQ (orc.atan2Q (st.y - cyM) (st.x - cxM)) - 6)
          (if st.name ≠ "" then st.name else st.idStr) cfg2.blue
          (some (cfg2.fontSize - 1)) "start"]
      else []) = [] := by
    split
    · simp [List.filter, isDirLine_createText]
    · split
      · simp [List.filter, isDirLine_createText]
      · rfl
  rw [hname]
  simp [List.filter, isDirLine_sgpMarkedLine, isDirLine_createText]

/-- Helper: a station's parts contain the distance label at the direction
line's midpoint, whose text is the real metric distance from the
station's original coordinates to the first boundary point's original
coordinates, one decimal place, with the units suffix. -/
theorem sgpStationParts_distText_mem (orc : MathOracle) (cfg2 : SVGConfigM)
    (tokens : List String) (cxPx cyPx cxM cyM ringR : ℚ) (p0 : BPointM)
    (p0c : ℚ × ℚ) (st : StationM) :
    createText cfg2
        ((cxPx + ringR * orc.cosQ (orc.atan2Q (st.y - cyM) (st.x - cxM)) + p0c.1) / 2)
        ((cyPx + ringR * orc.sinQ (orc.atan2Q (st.y - cyM) (st.x - cxM)) + p0c.2) / 2 - 8)
        (pyFmt1 (orc.sqrtQ ((st.x - p0.x) ^ 2 + (st.y - p0.y) ^ 2)) ++ " м")
        cfg2.blue (some (cfg2.fontSize - 2)) "middle" ∈
      (sgpStationParts orc cfg2 tokens cxPx cyPx cxM cyM ringR (some p0) (some p0c) st).1 := by
  unfold sgpStationParts
  dsimp only
  simp [Option.getD_some, List.mem_append]

/-- Helper: a fold whose visible component appends a ghost-independent
contribution per element flattens to `flatMap`. -/
theorem foldl_ghost_flatMap {γ τ : Type} (l : List γ) (F : γ → List String)
    (G : τ → γ → τ) :
    ∀ (s0 : List String) (t : τ),
      (l.foldl (fun (a : List String × τ) x => (a.1 ++ F x, G a.2 x)) (s0, t)).1 =
        s0 ++ l.flatMap F := by
  induction l with
  | nil => intro s0 t; simp
  | cons x xs ih =>
    intro s0 t
    rw [List.foldl_cons, ih]
    simp [List.append_assoc]

/-- Helper: the station loop's markup is the in-order concatenation of the
per-station parts (each computed from an empty token seed, which the
markup never reads). -/
theorem sgpStationLoop_fst_flatMap (orc : MathOracle) (cfg2 : SVGConfigM)
    (tokens : List String) (cxPx cyPx cxM cyM ringR : ℚ) (p0 : Option BPointM)
    (p0c : Option (ℚ × ℚ)) (stations : List StationM) :
    (sgpStationLoop orc cfg2 tokens cxPx cyPx cxM cyM ringR p0 p0c stations).1 =
      stations.flatMap (fun st =>
        (sgpStationParts orc cfg2 [] cxPx cyPx cxM cyM ringR p0 p0c st).1) := by
  unfold sgpStationLoop
  have h := foldl_ghost_flatMap stations
    (fun st => (sgpStationParts orc cfg2 [] cxPx cyPx cxM cyM ringR p0 p0c st).1)
    (fun (t : List String) st =>
      (sgpStationParts orc cfg2 t cxPx cyPx cxM cyM ringR p0 p0c st).2)
    [] tokens
  rw [List.nil_append] at h
  exact h

/-- Helper: the normalization stage maps the input coordinates pointwise
and in order. -/
theorem normalizeCoordinates_map (cfg : SVGConfigM) (coords : List (ℚ × ℚ)) :
    ∃ f : (ℚ × ℚ) → ℚ × ℚ, (normalizeCoordinates cfg coords).1 = coords.map f := by
  unfold normalizeCoordinates
  cases coords with
  | nil => exact ⟨id, rfl⟩
  | cons c cs =>
    dsimp only
    exact ⟨_, rfl⟩

/-- Helper: a successful SGP layout has one on-page ring vertex per input
boundary point (every stage maps the list pointwise). -/
theorem sgpLayout_length (cfg2 : SVGConfigM) (points : List BPointM)
    (lay : List (ℚ × ℚ) × ℚ × ℚ) (h : sgpLayout cfg2 points = some lay) :
    lay.1.length = points.length := by
  obtain ⟨f0, hf0⟩ := normalizeCoordinates_map cfg2 (points.map (fun p => (p.x, p.y)))
  have hplen : (points.map (fun p => (p.x, p.y))).length = points.length :=
    List.length_map _ _
  unfold sgpLayout at h
  dsimp only at h
  rw [hf0] at h
  by_cases h3 : 3 ≤ ((points.map (fun p => (p.x, p.y))).map f0).length
  · rw [if_pos h3, List.map_map] at h
    cases hcc : points.map (fun p => (p.x, p.y)) with
    | nil => rw [hcc] at h; simp at h
    | cons c cs =>
      have hlen : points.length = cs.length + 1 := by
        rw [← hplen, hcc, List.length_cons]
      rw [hcc] at h
      split at h
      · simp at h
      · next q qs heq =>
        rw [List.map_cons] at heq
        injection heq with hq hqs
        subst hq hqs
        split at h
        · split at h
          · simp at h
          · injection h with h'
            rw [← h']
            simp [hlen]
        · injection h with h'
          rw [← h']
          simp [hlen]
  · rw [if_neg h3] at h
    cases hcc : points.map (fun p => (p.x, p.y)) with
    | nil => rw [hcc] at h; simp at h
    | cons c cs =>
      have hlen : points.length = cs.length + 1 := by
        rw [← hplen, hcc, List.length_cons]
      rw [hcc] at h
      split at h
      · simp at h
      · next q qs heq =>
        rw [List.map_cons] at heq
        injection heq with hq hqs
        subst hq hqs
        split at h
        · split at h
          · simp at h
          · injection h with h'
            rw [← h']
            simp [hlen]
        · injection h with h'
          rw [← h']
          simp [hlen]

/-- C10: in the SGP composer, for every station of the input (under a
non-empty boundary-point list whose layout succeeds) the emitted sheet
contains the stations' markup in input order, each station's markup
holds exactly one direction line — the marked blue line from the
station's ring position to the layout's first on-page vertex (the `н1`
point: the layout has exactly one on-page vertex per input point, in
order, so its head is the first boundary point's position) — and the
distance label next to that line carries the true Euclidean metric
distance between the station's original coordinates and the first
boundary point's original coordinates (independent of the compressed
on-page ring positions), formatted to one decimal place with the `м`
unit. -/
theorem C10_sgp_station_directions (orc : MathOracle) (s : GenState)
    (parcels : List ParcelM) (stations : List StationM) (dirs : List DirectionM)
    (p0 : BPointM) (ps : List BPointM) (lay : List (ℚ × ℚ) × ℚ × ℚ)
    (hlay : sgpLayout (sgpWorkCfg s.cfg) (p0 :: ps) = some lay) :
    (∃ pre post s2,
      generateSgpGraphics orc s parcels stations dirs (p0 :: ps) =
        some (String.intercalate "\n"
          (pre ++ stations.flatMap (fun st =>
            (sgpStationParts orc (sgpWorkCfg s.cfg) [] lay.2.1 lay.2.2
              (((p0 :: ps).map (fun p => p.x)).sum / (((p0 :: ps).length : ℚ)))
              (((p0 :: ps).map (fun p => p.y)).sum / (((p0 :: ps).length : ℚ)))
              (sgpRingR orc (sgpWorkCfg s.cfg) lay.1 lay.2.1 lay.2.2)
              (some p0) lay.1.head? st).1) ++ post), s2)) ∧
    lay.1.length = ps.length + 1 ∧
    (∀ (cfg2 : SVGConfigM) (tokens : List String) (cxPx cyPx cxM cyM ringR : ℚ)
        (p0c : ℚ × ℚ) (st : StationM),
      ((sgpStationParts orc cfg2 tokens cxPx cyPx cxM cyM ringR (some p0)
          (some p0c) st).1.filter isDirLine) =
        [sgpMarkedLine cfg2
          (cxPx + ringR * orc.cosQ (orc.atan2Q (st.y - cyM) (st.x - cxM)))
          (cyPx + ringR * orc.sinQ (orc.atan2Q (st.y - cyM) (st.x - cxM)))
          p0c.1 p0c.2] ∧
      createText cfg2
          ((cxPx + ringR * orc.cosQ (orc.atan2Q (st.y - cyM) (st.x - cxM)) + p0c.1) / 2)
          ((cyPx + ringR * orc.sinQ (orc.atan2Q (st.y - cyM) (st.x - cxM)) + p0c.2) / 2 - 8)
          (pyFmt1 (orc.sqrtQ ((st.x - p0.x) ^ 2 + (st.y - p0.y) ^ 2)) ++ " м")
          cfg2.blue (some (cfg2.fontSize - 2)) "middle" ∈
        (sgpStationParts orc cfg2 tokens cxPx cyPx cxM cyM ringR (some p0)
          (some p0c) st).1) := by
  refine ⟨?_, ?_, ?_⟩
  · unfold generateSgpGraphics
    dsimp only
    simp only [List.isEmpty_cons, Bool.false_eq_true, if_false]
    rw [hlay]
    dsimp only
    rw [sgpStationLoop_fst_flatMap]
    simp only [List.head?_cons]
    exact ⟨_, _, _, rfl⟩
  · have hl := sgpLayout_length _ _ _ hlay
    simpa using hl
  · intro cfg2 tokens cxPx cyPx cxM cyM ringR p0c st
    exact ⟨sgpStationParts_filter_dir orc cfg2 tokens cxPx cyPx cxM cyM ringR
        (some p0) p0c st,
      sgpStationParts_distText_mem orc cfg2 tokens cxPx cyPx cxM cyM ringR p0 p0c st⟩

/-- C10 witness: the default configuration with boundary points
`(0,0), (1,0), (0,100)` (layout evaluated exactly) and the station
`(3, 4)`. -/
theorem C10_sgp_station_directions_witness :
    (sgpLayout (sgpWorkCfg (freshGenState ({} : SVGConfigM)).cfg) (p0S :: psS) =
      some layS) ∧
    ((∃ pre post s2,
      generateSgpGraphics zeroOracle (freshGenState {}) [] [stS] [] (p0S :: psS) =
        some (String.intercalate "\n"
          (pre ++ [stS].flatMap (fun st =>
            (sgpStationParts zeroOracle (sgpWorkCfg (freshGenState ({} : SVGConfigM)).cfg)
              [] layS.2.1 layS.2.2
              (((p0S :: psS).map (fun p => p.x)).sum / (((p0S :: psS).length : ℚ)))
              (((p0S :: psS).map (fun p => p.y)).sum / (((p0S :: psS).length : ℚ)))
              (sgpRingR zeroOracle (sgpWorkCfg (freshGenState ({} : SVGConfigM)).cfg)
                layS.1 layS.2.1 layS.2.2)
              (some p0S) layS.1.head? st).1) ++ post), s2)) ∧
    layS.1.length = psS.length + 1 ∧
    (∀ (cfg2 : SVGConfigM) (tokens : List String) (cxPx cyPx cxM cyM ringR : ℚ)
        (p0c : ℚ × ℚ) (st : StationM),
      ((sgpStationParts zeroOracle cfg2 tokens cxPx cyPx cxM cyM ringR (some p0S)
          (some p0c) st).1.filter isDirLine) =
        [sgpMarkedLine cfg2
          (cxPx + ringR * zeroOracle.cosQ (zeroOracle.atan2Q (st.y - cyM) (st.x - cxM)))
          (cyPx + ringR * zeroOracle.sinQ (zeroOracle.atan2Q (st.y - cyM) (st.x - cxM)))
          p0c.1 p0c.2] ∧
      createText cfg2
          ((cxPx + ringR * zeroOracle.cosQ (zeroOracle.atan2Q (st.y - cyM) (st.x - cxM)) +
              p0c.1) / 2)
          ((cyPx + ringR * zeroOracle.sinQ (zeroOracle.atan2Q (st.y - cyM) (st.x - cxM)) +
              p0c.2) / 2 - 8)
          (pyFmt1 (zeroOracle.sqrtQ ((st.x - p0S.x) ^ 2 + (st.y - p0S.y) ^ 2)) ++ " м")
          cfg2.blue (some (cfg2.fontSize - 2)) "middle" ∈
        (sgpStationParts zeroOracle cfg2 tokens cxPx cyPx cxM cyM ringR (some p0S)
          (some p0c) st).1)) :=
  ⟨by with_unfolding_all rfl,
    C10_sgp_station_directions zeroOracle (freshGenState {}) [] [stS] [] p0S psS layS
      (by with_unfolding_all rfl)⟩
